import Mathlib

/-!
# ledisdb `config` package: schema, defaults, adjustment, load and dump

A shallow embedding of `config/config.go`.  Go `int` fields are `Int`
(the code only compares them with zero and stores constants far below
`2^63`, so no arithmetic can overflow; the integers a document can put in a
field are those of the 64-bit range, see `Decode`), Go `string` is `String`,
Go `bool` is `Bool`.  Methods with a pointer receiver that mutate the receiver are
functions returning the updated record.
-/

namespace Ledis

/-! ## Constants (config.go, lines 16-26) -/

def DefaultAddr : String := "127.0.0.1:6380"

def DefaultDBName : String := "goleveldb"

def DefaultDataDir : String := "./var"

def KB : Int := 1024

def MB : Int := KB * 1024

def GB : Int := MB * 1024

/-! ## Schema (config.go, lines 28-119) -/

structure LevelDBConfig where
  Compression : Bool
  BlockSize : Int
  WriteBufferSize : Int
  CacheSize : Int
  MaxOpenFiles : Int
deriving DecidableEq

structure RocksDBConfig where
  Compression : Int
  BlockSize : Int
  WriteBufferSize : Int
  CacheSize : Int
  MaxOpenFiles : Int
  MaxWriteBufferNum : Int
  MinWriteBufferNumberToMerge : Int
  NumLevels : Int
  Level0FileNumCompactionTrigger : Int
  Level0SlowdownWritesTrigger : Int
  Level0StopWritesTrigger : Int
  TargetFileSizeBase : Int
  TargetFileSizeMultiplier : Int
  MaxBytesForLevelBase : Int
  MaxBytesForLevelMultiplier : Int
  DisableAutoCompactions : Bool
  DisableDataSync : Bool
  UseFsync : Bool
  MaxBackgroundCompactions : Int
  MaxBackgroundFlushes : Int
  AllowOsBuffer : Bool
  EnableStatistics : Bool
  StatsDumpPeriodSec : Int
  BackgroundThreads : Int
  HighPriorityBackgroundThreads : Int
  DisableWAL : Bool
deriving DecidableEq

structure LMDBConfig where
  MapSize : Int
  NoSync : Bool
deriving DecidableEq

structure ReplicationConfig where
  Path : String
  Sync : Bool
  WaitSyncTime : Int
  WaitMaxSlaveAcks : Int
  ExpiredLogDays : Int
  SyncLog : Int
  Compression : Bool
deriving DecidableEq

structure SnapshotConfig where
  Path : String
  MaxNum : Int
deriving DecidableEq

structure Config where
  FileName : String
  Addr : String
  HttpAddr : String
  SlaveOf : String
  Readonly : Bool
  DataDir : String
  DBName : String
  DBPath : String
  DBSyncCommit : Int
  LevelDB : LevelDBConfig
  RocksDB : RocksDBConfig
  LMDB : LMDBConfig
  AccessLog : String
  UseReplication : Bool
  Replication : ReplicationConfig
  Snapshot : SnapshotConfig
  ConnReadBufferSize : Int
  ConnWriteBufferSize : Int
  ConnKeepaliveInterval : Int
  TTLCheckInterval : Int
deriving DecidableEq

/-! ## Zero values: what Go's `new(Config)` allocates -/

def LevelDBConfig.zero : LevelDBConfig :=
  { Compression := false, BlockSize := 0, WriteBufferSize := 0, CacheSize := 0,
    MaxOpenFiles := 0 }

def RocksDBConfig.zero : RocksDBConfig :=
  { Compression := 0, BlockSize := 0, WriteBufferSize := 0, CacheSize := 0,
    MaxOpenFiles := 0, MaxWriteBufferNum := 0, MinWriteBufferNumberToMerge := 0,
    NumLevels := 0, Level0FileNumCompactionTrigger := 0,
    Level0SlowdownWritesTrigger := 0, Level0StopWritesTrigger := 0,
    TargetFileSizeBase := 0, TargetFileSizeMultiplier := 0,
    MaxBytesForLevelBase := 0, MaxBytesForLevelMultiplier := 0,
    DisableAutoCompactions := false, DisableDataSync := false, UseFsync := false,
    MaxBackgroundCompactions := 0, MaxBackgroundFlushes := 0,
    AllowOsBuffer := false, EnableStatistics := false, StatsDumpPeriodSec := 0,
    BackgroundThreads := 0, HighPriorityBackgroundThreads := 0,
    DisableWAL := false }

def LMDBConfig.zero : LMDBConfig := { MapSize := 0, NoSync := false }

def ReplicationConfig.zero : ReplicationConfig :=
  { Path := "", Sync := false, WaitSyncTime := 0, WaitMaxSlaveAcks := 0,
    ExpiredLogDays := 0, SyncLog := 0, Compression := false }

def SnapshotConfig.zero : SnapshotConfig := { Path := "", MaxNum := 0 }

def Config.zero : Config :=
  { FileName := "", Addr := "", HttpAddr := "", SlaveOf := "", Readonly := false,
    DataDir := "", DBName := "", DBPath := "", DBSyncCommit := 0,
    LevelDB := LevelDBConfig.zero, RocksDB := RocksDBConfig.zero,
    LMDB := LMDBConfig.zero, AccessLog := "", UseReplication := false,
    Replication := ReplicationConfig.zero, Snapshot := SnapshotConfig.zero,
    ConnReadBufferSize := 0, ConnWriteBufferSize := 0,
    ConnKeepaliveInterval := 0, TTLCheckInterval := 0 }

/-! ## Adjuster (config.go, lines 186-232) -/

/-- Go `getDefault(d, s)`: the default `d` when `s <= 0`, else `s`. -/
def getDefault (d : Int) (s : Int) : Int :=
  if s ≤ 0 then d else s

/-- Method `(*LevelDBConfig).adjust`, the four assignments in source order. -/
def LevelDBConfig.adjust (cfg : LevelDBConfig) : LevelDBConfig :=
  cfg
  |> (fun cfg => { cfg with CacheSize := getDefault (4 * MB) cfg.CacheSize })
  |> (fun cfg => { cfg with BlockSize := getDefault (4 * KB) cfg.BlockSize })
  |> (fun cfg => { cfg with WriteBufferSize := getDefault (4 * MB) cfg.WriteBufferSize })
  |> (fun cfg => { cfg with MaxOpenFiles := getDefault 1024 cfg.MaxOpenFiles })

/-- Method `(*RocksDBConfig).adjust`, the nineteen assignments in source order. -/
def RocksDBConfig.adjust (cfg : RocksDBConfig) : RocksDBConfig :=
  cfg
  |> (fun cfg => { cfg with CacheSize := getDefault (4 * MB) cfg.CacheSize })
  |> (fun cfg => { cfg with BlockSize := getDefault (4 * KB) cfg.BlockSize })
  |> (fun cfg => { cfg with WriteBufferSize := getDefault (4 * MB) cfg.WriteBufferSize })
  |> (fun cfg => { cfg with MaxOpenFiles := getDefault 1024 cfg.MaxOpenFiles })
  |> (fun cfg => { cfg with MaxWriteBufferNum := getDefault 2 cfg.MaxWriteBufferNum })
  |> (fun cfg => { cfg with
      MinWriteBufferNumberToMerge := getDefault 1 cfg.MinWriteBufferNumberToMerge })
  |> (fun cfg => { cfg with NumLevels := getDefault 7 cfg.NumLevels })
  |> (fun cfg => { cfg with
      Level0FileNumCompactionTrigger := getDefault 4 cfg.Level0FileNumCompactionTrigger })
  |> (fun cfg => { cfg with
      Level0SlowdownWritesTrigger := getDefault 16 cfg.Level0SlowdownWritesTrigger })
  |> (fun cfg => { cfg with
      Level0StopWritesTrigger := getDefault 64 cfg.Level0StopWritesTrigger })
  |> (fun cfg => { cfg with TargetFileSizeBase := getDefault (32 * MB) cfg.TargetFileSizeBase })
  |> (fun cfg => { cfg with
      TargetFileSizeMultiplier := getDefault 1 cfg.TargetFileSizeMultiplier })
  |> (fun cfg => { cfg with
      MaxBytesForLevelBase := getDefault (32 * MB) cfg.MaxBytesForLevelBase })
  |> (fun cfg => { cfg with
      MaxBytesForLevelMultiplier := getDefault 1 cfg.MaxBytesForLevelMultiplier })
  |> (fun cfg => { cfg with
      MaxBackgroundCompactions := getDefault 1 cfg.MaxBackgroundCompactions })
  |> (fun cfg => { cfg with MaxBackgroundFlushes := getDefault 1 cfg.MaxBackgroundFlushes })
  |> (fun cfg => { cfg with StatsDumpPeriodSec := getDefault 3600 cfg.StatsDumpPeriodSec })
  |> (fun cfg => { cfg with BackgroundThreads := getDefault 2 cfg.BackgroundThreads })
  |> (fun cfg => { cfg with
      HighPriorityBackgroundThreads := getDefault 1 cfg.HighPriorityBackgroundThreads })

/-- Method `(*Config).adjust`: both engine sub-configurations, then the four
top-level fields. -/
def Config.adjust (cfg : Config) : Config :=
  cfg
  |> (fun cfg => { cfg with LevelDB := cfg.LevelDB.adjust })
  |> (fun cfg => { cfg with RocksDB := cfg.RocksDB.adjust })
  |> (fun cfg => { cfg with
      Replication := { cfg.Replication with
        ExpiredLogDays := getDefault 7 cfg.Replication.ExpiredLogDays } })
  |> (fun cfg => { cfg with ConnReadBufferSize := getDefault (4 * KB) cfg.ConnReadBufferSize })
  |> (fun cfg => { cfg with ConnWriteBufferSize := getDefault (4 * KB) cfg.ConnWriteBufferSize })
  |> (fun cfg => { cfg with TTLCheckInterval := getDefault 1 cfg.TTLCheckInterval })

/-! ## Default constructor (config.go, lines 148-184) -/

/-- Go `NewConfigDefault`: the assignments in source order on a zeroed `Config`,
then `adjust`. -/
def NewConfigDefault : Config :=
  Config.zero
  |> (fun cfg => { cfg with Addr := DefaultAddr })
  |> (fun cfg => { cfg with HttpAddr := "" })
  |> (fun cfg => { cfg with DataDir := DefaultDataDir })
  |> (fun cfg => { cfg with DBName := DefaultDBName })
  |> (fun cfg => { cfg with SlaveOf := "" })
  |> (fun cfg => { cfg with Readonly := false })
  |> (fun cfg => { cfg with AccessLog := "" })
  |> (fun cfg => { cfg with LMDB := { cfg.LMDB with MapSize := 20 * MB } })
  |> (fun cfg => { cfg with LMDB := { cfg.LMDB with NoSync := true } })
  |> (fun cfg => { cfg with UseReplication := false })
  |> (fun cfg => { cfg with Replication := { cfg.Replication with WaitSyncTime := 500 } })
  |> (fun cfg => { cfg with Replication := { cfg.Replication with Compression := true } })
  |> (fun cfg => { cfg with Replication := { cfg.Replication with WaitMaxSlaveAcks := 2 } })
  |> (fun cfg => { cfg with Replication := { cfg.Replication with SyncLog := 0 } })
  |> (fun cfg => { cfg with Snapshot := { cfg.Snapshot with MaxNum := 1 } })
  |> (fun cfg => { cfg with RocksDB := { cfg.RocksDB with AllowOsBuffer := true } })
  |> (fun cfg => { cfg with RocksDB := { cfg.RocksDB with EnableStatistics := false } })
  |> (fun cfg => { cfg with RocksDB := { cfg.RocksDB with UseFsync := false } })
  |> (fun cfg => { cfg with RocksDB := { cfg.RocksDB with DisableAutoCompactions := false } })
  |> (fun cfg => { cfg with RocksDB := { cfg.RocksDB with AllowOsBuffer := true } })
  |> (fun cfg => { cfg with RocksDB := { cfg.RocksDB with DisableWAL := false } })
  |> Config.adjust

/-! ## Errors -/

/-- Error values the package returns: its own `ErrNoConfigFile`, and the
errors handed back by the collaborators, which it passes on unchanged. -/
inductive Error
  | ErrNoConfigFile
  | toml (msg : String)
  | os (msg : String)
deriving DecidableEq

/-! ## Documents

The package never looks at the bytes of a document itself: it hands them to
`toml.Decode` and gets them from `toml.Encoder`.  Bytes are therefore
represented by what the TOML reader makes of them. -/

/-- A value found under a key inside a section (or, wrapped, at top level).
`other` stands for every TOML value that is neither a string, an integer nor
a boolean: a float, a datetime, an array, a nested table. -/
inductive Scalar
  | str (s : String)
  | int (n : Int)
  | bool (b : Bool)
  | other
deriving DecidableEq

/-- A value found under a top-level key: a plain value or a section. -/
inductive Value
  | scalar (v : Scalar)
  | table (kvs : List (String × Scalar))
deriving DecidableEq

/-- The key/value pairs of a document, in the order the decoder visits them. -/
abbrev Table := List (String × Value)

/-- The bytes of a document: text the TOML reader rejects (with its error),
or text that reads as a table.  A table holding an integer outside the 64-bit
range stands for text with such an integer literal, which the reader
refuses too (see `Decode`). -/
inductive Data
  | malformed (msg : String)
  | document (t : Table)
deriving DecidableEq

/-! ## Field tables: the `toml:"..."` struct tags (config.go, lines 28-119) -/

inductive LevelDBField
  | Compression | BlockSize | WriteBufferSize | CacheSize | MaxOpenFiles
deriving DecidableEq

inductive RocksDBField
  | Compression | BlockSize | WriteBufferSize | CacheSize | MaxOpenFiles
  | MaxWriteBufferNum | MinWriteBufferNumberToMerge | NumLevels
  | Level0FileNumCompactionTrigger | Level0SlowdownWritesTrigger
  | Level0StopWritesTrigger | TargetFileSizeBase | TargetFileSizeMultiplier
  | MaxBytesForLevelBase | MaxBytesForLevelMultiplier | DisableAutoCompactions
  | DisableDataSync | UseFsync | MaxBackgroundCompactions | MaxBackgroundFlushes
  | AllowOsBuffer | EnableStatistics | StatsDumpPeriodSec | BackgroundThreads
  | HighPriorityBackgroundThreads | DisableWAL
deriving DecidableEq

inductive LMDBField
  | MapSize | NoSync
deriving DecidableEq

inductive ReplicationField
  | Path | Sync | WaitSyncTime | WaitMaxSlaveAcks | ExpiredLogDays | SyncLog
  | Compression
deriving DecidableEq

inductive SnapshotField
  | Path | MaxNum
deriving DecidableEq

/-- The fields of `Config` the TOML package sees.  `FileName` is tagged
`toml:"-"` and is no field for it. -/
inductive ConfigField
  | Addr | HttpAddr | SlaveOf | Readonly | DataDir | DBName | DBPath
  | DBSyncCommit | LevelDB | RocksDB | LMDB | AccessLog | UseReplication
  | Replication | Snapshot | ConnReadBufferSize | ConnWriteBufferSize
  | ConnKeepaliveInterval | TTLCheckInterval
deriving DecidableEq

/-- Key of each `LevelDBConfig` field, as tagged, in declaration order. -/
def LevelDBConfig.fields : List (String × LevelDBField) :=
  [("compression", .Compression), ("block_size", .BlockSize),
   ("write_buffer_size", .WriteBufferSize), ("cache_size", .CacheSize),
   ("max_open_files", .MaxOpenFiles)]

/-- Key of each `RocksDBConfig` field, as tagged, in declaration order. -/
def RocksDBConfig.fields : List (String × RocksDBField) :=
  [("compression", .Compression), ("block_size", .BlockSize),
   ("write_buffer_size", .WriteBufferSize), ("cache_size", .CacheSize),
   ("max_open_files", .MaxOpenFiles),
   ("max_write_buffer_num", .MaxWriteBufferNum),
   ("min_write_buffer_number_to_merge", .MinWriteBufferNumberToMerge),
   ("num_levels", .NumLevels),
   ("level0_file_num_compaction_trigger", .Level0FileNumCompactionTrigger),
   ("level0_slowdown_writes_trigger", .Level0SlowdownWritesTrigger),
   ("level0_stop_writes_trigger", .Level0StopWritesTrigger),
   ("target_file_size_base", .TargetFileSizeBase),
   ("target_file_size_multiplier", .TargetFileSizeMultiplier),
   ("max_bytes_for_level_base", .MaxBytesForLevelBase),
   ("max_bytes_for_level_multiplier", .MaxBytesForLevelMultiplier),
   ("disable_auto_compactions", .DisableAutoCompactions),
   ("disable_data_sync", .DisableDataSync), ("use_fsync", .UseFsync),
   ("max_background_compactions", .MaxBackgroundCompactions),
   ("max_background_flushes", .MaxBackgroundFlushes),
   ("allow_os_buffer", .AllowOsBuffer),
   ("enable_statistics", .EnableStatistics),
   ("stats_dump_period_sec", .StatsDumpPeriodSec),
   ("background_theads", .BackgroundThreads),
   ("high_priority_background_threads", .HighPriorityBackgroundThreads),
   ("disable_wal", .DisableWAL)]

/-- Key of each `LMDBConfig` field, as tagged. -/
def LMDBConfig.fields : List (String × LMDBField) :=
  [("map_size", .MapSize), ("nosync", .NoSync)]

/-- Key of each `ReplicationConfig` field, as tagged, in declaration order. -/
def ReplicationConfig.fields : List (String × ReplicationField) :=
  [("path", .Path), ("sync", .Sync), ("wait_sync_time", .WaitSyncTime),
   ("wait_max_slave_acks", .WaitMaxSlaveAcks),
   ("expired_log_days", .ExpiredLogDays), ("sync_log", .SyncLog),
   ("compression", .Compression)]

/-- Key of each `SnapshotConfig` field, as tagged. -/
def SnapshotConfig.fields : List (String × SnapshotField) :=
  [("path", .Path), ("max_num", .MaxNum)]

/-- Key of each `Config` field, in declaration order, copied from the tags
as they are spelled in the source.  The tag of `Readonly` is written
`toml:readonly` without quotes; Go's `reflect.StructTag.Get` finds no value in
such a tag, so the field goes by its Go name `Readonly`. -/
def Config.fields : List (String × ConfigField) :=
  [("addr", .Addr), ("http_addr", .HttpAddr), ("slaveof", .SlaveOf),
   ("Readonly", .Readonly), ("data_dir", .DataDir), ("db_name", .DBName),
   ("db_path", .DBPath), ("db_sync_commit", .DBSyncCommit),
   ("leveldb", .LevelDB), ("rocksdb", .RocksDB), ("lmdb", .LMDB),
   ("access_log", .AccessLog), ("use_replication", .UseReplication),
   ("replication", .Replication), ("snapshot", .Snapshot),
   ("conn_read_buffer_size", .ConnReadBufferSize),
   ("conn_write_buffer_size", .ConnWriteBufferSize),
   ("conn_keepavlie_interval", .ConnKeepaliveInterval),
   ("ttl_check_interval", .TTLCheckInterval)]

/-! ## The TOML decoder, as the package uses it -/

/-- Modelled from the spec: case folding of one character, for the decoder's
key comparison (`strings.EqualFold` in the TOML package, which is not part of
this repository).  Exact on the characters that fold to an ASCII character:
the ASCII letters, the Kelvin sign (to `k`) and the long s (to `s`). -/
def foldRune (c : Char) : Char :=
  if c = Char.ofNat 0x212A then 'k'
  else if c = Char.ofNat 0x17F then 's'
  else c.toLower

/-- Modelled from the spec: `strings.EqualFold name key` for a field name
`name` made of ASCII characters. -/
def EqualFold (name key : String) : Bool :=
  name.data.map foldRune == key.data.map foldRune

/-- Modelled from the spec: the field a document key is bound to ("field names
are fixed identifiers", "unknown keys are ignored").  As the TOML package
does it: the first field whose name is the key exactly, failing that the
first field whose name equals the key up to case; `none` for an unknown
key. -/
def findField {F : Type} (fields : List (String × F)) (key : String) : Option F :=
  match fields.find? (fun f => f.1 == key) with
  | some f => some f.2
  | none =>
    match fields.find? (fun f => EqualFold f.1 key) with
    | some f => some f.2
    | none => none

/-- The decoder's error for a value of the wrong type. -/
def mismatch : Error := Error.toml "type mismatch"

/-- Modelled from the spec: a string field accepts a string only. -/
def asString : Scalar → Except Error String
  | .str s => .ok s
  | _ => .error mismatch

/-- Modelled from the spec: an integer field accepts an integer only.  The
integers that get here are 64-bit ones, the reader having refused any
other (see `Decode`), and a Go `int` field holds every one of them. -/
def asInt : Scalar → Except Error Int
  | .int n => .ok n
  | _ => .error mismatch

/-- Modelled from the spec: a boolean field accepts a boolean only. -/
def asBool : Scalar → Except Error Bool
  | .bool b => .ok b
  | _ => .error mismatch

/-- Modelled from the spec: a plain field accepts no section. -/
def asScalar : Value → Except Error Scalar
  | .scalar v => .ok v
  | .table _ => .error mismatch

/-- Modelled from the spec: a struct field accepts a section only. -/
def asTable : Value → Except Error (List (String × Scalar))
  | .table kvs => .ok kvs
  | .scalar _ => .error mismatch

/-- Modelled from the spec: decoding a table over a struct value ("decoded
fields overwrite the corresponding defaults; absent fields keep the default
untouched", "unknown keys are ignored").  The pairs are taken in turn; a key
bound to a field stores its value there through `set`, a key bound to no
field is skipped, the first value of the wrong type ends the decoding with
its error. -/
def unifyStruct {F S V : Type} (fields : List (String × F))
    (set : F → V → S → Except Error S) : List (String × V) → S → Except Error S
  | [], s => .ok s
  | (key, v) :: rest, s =>
    match findField fields key with
    | none => unifyStruct fields set rest s
    | some f =>
      match set f v s with
      | .error e => .error e
      | .ok s1 => unifyStruct fields set rest s1

/-- Store a decoded value in a `LevelDBConfig` field. -/
def LevelDBField.set (f : LevelDBField) (v : Scalar) (c : LevelDBConfig) :
    Except Error LevelDBConfig :=
  match f with
  | .Compression => (asBool v).map fun x => { c with Compression := x }
  | .BlockSize => (asInt v).map fun x => { c with BlockSize := x }
  | .WriteBufferSize => (asInt v).map fun x => { c with WriteBufferSize := x }
  | .CacheSize => (asInt v).map fun x => { c with CacheSize := x }
  | .MaxOpenFiles => (asInt v).map fun x => { c with MaxOpenFiles := x }

/-- Read a `LevelDBConfig` field as a document value. -/
def LevelDBField.get (f : LevelDBField) (c : LevelDBConfig) : Scalar :=
  match f with
  | .Compression => .bool c.Compression
  | .BlockSize => .int c.BlockSize
  | .WriteBufferSize => .int c.WriteBufferSize
  | .CacheSize => .int c.CacheSize
  | .MaxOpenFiles => .int c.MaxOpenFiles

/-- Store a decoded value in a `RocksDBConfig` field. -/
def RocksDBField.set (f : RocksDBField) (v : Scalar) (c : RocksDBConfig) :
    Except Error RocksDBConfig :=
  match f with
  | .Compression => (asInt v).map fun x => { c with Compression := x }
  | .BlockSize => (asInt v).map fun x => { c with BlockSize := x }
  | .WriteBufferSize => (asInt v).map fun x => { c with WriteBufferSize := x }
  | .CacheSize => (asInt v).map fun x => { c with CacheSize := x }
  | .MaxOpenFiles => (asInt v).map fun x => { c with MaxOpenFiles := x }
  | .MaxWriteBufferNum => (asInt v).map fun x => { c with MaxWriteBufferNum := x }
  | .MinWriteBufferNumberToMerge =>
    (asInt v).map fun x => { c with MinWriteBufferNumberToMerge := x }
  | .NumLevels => (asInt v).map fun x => { c with NumLevels := x }
  | .Level0FileNumCompactionTrigger =>
    (asInt v).map fun x => { c with Level0FileNumCompactionTrigger := x }
  | .Level0SlowdownWritesTrigger =>
    (asInt v).map fun x => { c with Level0SlowdownWritesTrigger := x }
  | .Level0StopWritesTrigger =>
    (asInt v).map fun x => { c with Level0StopWritesTrigger := x }
  | .TargetFileSizeBase => (asInt v).map fun x => { c with TargetFileSizeBase := x }
  | .TargetFileSizeMultiplier =>
    (asInt v).map fun x => { c with TargetFileSizeMultiplier := x }
  | .MaxBytesForLevelBase => (asInt v).map fun x => { c with MaxBytesForLevelBase := x }
  | .MaxBytesForLevelMultiplier =>
    (asInt v).map fun x => { c with MaxBytesForLevelMultiplier := x }
  | .DisableAutoCompactions =>
    (asBool v).map fun x => { c with DisableAutoCompactions := x }
  | .DisableDataSync => (asBool v).map fun x => { c with DisableDataSync := x }
  | .UseFsync => (asBool v).map fun x => { c with UseFsync := x }
  | .MaxBackgroundCompactions =>
    (asInt v).map fun x => { c with MaxBackgroundCompactions := x }
  | .MaxBackgroundFlushes => (asInt v).map fun x => { c with MaxBackgroundFlushes := x }
  | .AllowOsBuffer => (asBool v).map fun x => { c with AllowOsBuffer := x }
  | .EnableStatistics => (asBool v).map fun x => { c with EnableStatistics := x }
  | .StatsDumpPeriodSec => (asInt v).map fun x => { c with StatsDumpPeriodSec := x }
  | .BackgroundThreads => (asInt v).map fun x => { c with BackgroundThreads := x }
  | .HighPriorityBackgroundThreads =>
    (asInt v).map fun x => { c with HighPriorityBackgroundThreads := x }
  | .DisableWAL => (asBool v).map fun x => { c with DisableWAL := x }

/-- Read a `RocksDBConfig` field as a document value. -/
def RocksDBField.get (f : RocksDBField) (c : RocksDBConfig) : Scalar :=
  match f with
  | .Compression => .int c.Compression
  | .BlockSize => .int c.BlockSize
  | .WriteBufferSize => .int c.WriteBufferSize
  | .CacheSize => .int c.CacheSize
  | .MaxOpenFiles => .int c.MaxOpenFiles
  | .MaxWriteBufferNum => .int c.MaxWriteBufferNum
  | .MinWriteBufferNumberToMerge => .int c.MinWriteBufferNumberToMerge
  | .NumLevels => .int c.NumLevels
  | .Level0FileNumCompactionTrigger => .int c.Level0FileNumCompactionTrigger
  | .Level0SlowdownWritesTrigger => .int c.Level0SlowdownWritesTrigger
  | .Level0StopWritesTrigger => .int c.Level0StopWritesTrigger
  | .TargetFileSizeBase => .int c.TargetFileSizeBase
  | .TargetFileSizeMultiplier => .int c.TargetFileSizeMultiplier
  | .MaxBytesForLevelBase => .int c.MaxBytesForLevelBase
  | .MaxBytesForLevelMultiplier => .int c.MaxBytesForLevelMultiplier
  | .DisableAutoCompactions => .bool c.DisableAutoCompactions
  | .DisableDataSync => .bool c.DisableDataSync
  | .UseFsync => .bool c.UseFsync
  | .MaxBackgroundCompactions => .int c.MaxBackgroundCompactions
  | .MaxBackgroundFlushes => .int c.MaxBackgroundFlushes
  | .AllowOsBuffer => .bool c.AllowOsBuffer
  | .EnableStatistics => .bool c.EnableStatistics
  | .StatsDumpPeriodSec => .int c.StatsDumpPeriodSec
  | .BackgroundThreads => .int c.BackgroundThreads
  | .HighPriorityBackgroundThreads => .int c.HighPriorityBackgroundThreads
  | .DisableWAL => .bool c.DisableWAL

/-- Store a decoded value in an `LMDBConfig` field. -/
def LMDBField.set (f : LMDBField) (v : Scalar) (c : LMDBConfig) :
    Except Error LMDBConfig :=
  match f with
  | .MapSize => (asInt v).map fun x => { c with MapSize := x }
  | .NoSync => (asBool v).map fun x => { c with NoSync := x }

/-- Read an `LMDBConfig` field as a document value. -/
def LMDBField.get (f : LMDBField) (c : LMDBConfig) : Scalar :=
  match f with
  | .MapSize => .int c.MapSize
  | .NoSync => .bool c.NoSync

/-- Store a decoded value in a `ReplicationConfig` field. -/
def ReplicationField.set (f : ReplicationField) (v : Scalar) (c : ReplicationConfig) :
    Except Error ReplicationConfig :=
  match f with
  | .Path => (asString v).map fun x => { c with Path := x }
  | .Sync => (asBool v).map fun x => { c with Sync := x }
  | .WaitSyncTime => (asInt v).map fun x => { c with WaitSyncTime := x }
  | .WaitMaxSlaveAcks => (asInt v).map fun x => { c with WaitMaxSlaveAcks := x }
  | .ExpiredLogDays => (asInt v).map fun x => { c with ExpiredLogDays := x }
  | .SyncLog => (asInt v).map fun x => { c with SyncLog := x }
  | .Compression => (asBool v).map fun x => { c with Compression := x }

/-- Read a `ReplicationConfig` field as a document value. -/
def ReplicationField.get (f : ReplicationField) (c : ReplicationConfig) : Scalar :=
  match f with
  | .Path => .str c.Path
  | .Sync => .bool c.Sync
  | .WaitSyncTime => .int c.WaitSyncTime
  | .WaitMaxSlaveAcks => .int c.WaitMaxSlaveAcks
  | .ExpiredLogDays => .int c.ExpiredLogDays
  | .SyncLog => .int c.SyncLog
  | .Compression => .bool c.Compression

/-- Store a decoded value in a `SnapshotConfig` field. -/
def SnapshotField.set (f : SnapshotField) (v : Scalar) (c : SnapshotConfig) :
    Except Error SnapshotConfig :=
  match f with
  | .Path => (asString v).map fun x => { c with Path := x }
  | .MaxNum => (asInt v).map fun x => { c with MaxNum := x }

/-- Read a `SnapshotConfig` field as a document value. -/
def SnapshotField.get (f : SnapshotField) (c : SnapshotConfig) : Scalar :=
  match f with
  | .Path => .str c.Path
  | .MaxNum => .int c.MaxNum

/-- Modelled from the spec: what the encoder writes for a struct value, one
pair per field under the field's key. -/
def encodeStruct {F S V : Type} (fields : List (String × F)) (get : F → S → V)
    (s : S) : List (String × V) :=
  fields.map fun kf => (kf.1, get kf.2 s)

/-- Store a decoded value in a `Config` field; a section is decoded over the
sub-configuration held so far. -/
def ConfigField.set (f : ConfigField) (v : Value) (c : Config) : Except Error Config :=
  match f with
  | .Addr => (asScalar v >>= asString).map fun x => { c with Addr := x }
  | .HttpAddr => (asScalar v >>= asString).map fun x => { c with HttpAddr := x }
  | .SlaveOf => (asScalar v >>= asString).map fun x => { c with SlaveOf := x }
  | .Readonly => (asScalar v >>= asBool).map fun x => { c with Readonly := x }
  | .DataDir => (asScalar v >>= asString).map fun x => { c with DataDir := x }
  | .DBName => (asScalar v >>= asString).map fun x => { c with DBName := x }
  | .DBPath => (asScalar v >>= asString).map fun x => { c with DBPath := x }
  | .DBSyncCommit => (asScalar v >>= asInt).map fun x => { c with DBSyncCommit := x }
  | .LevelDB =>
    (asTable v >>= fun t => unifyStruct LevelDBConfig.fields LevelDBField.set t c.LevelDB).map
      fun x => { c with LevelDB := x }
  | .RocksDB =>
    (asTable v >>= fun t => unifyStruct RocksDBConfig.fields RocksDBField.set t c.RocksDB).map
      fun x => { c with RocksDB := x }
  | .LMDB =>
    (asTable v >>= fun t => unifyStruct LMDBConfig.fields LMDBField.set t c.LMDB).map
      fun x => { c with LMDB := x }
  | .AccessLog => (asScalar v >>= asString).map fun x => { c with AccessLog := x }
  | .UseReplication =>
    (asScalar v >>= asBool).map fun x => { c with UseReplication := x }
  | .Replication =>
    (asTable v >>= fun t =>
      unifyStruct ReplicationConfig.fields ReplicationField.set t c.Replication).map
      fun x => { c with Replication := x }
  | .Snapshot =>
    (asTable v >>= fun t =>
      unifyStruct SnapshotConfig.fields SnapshotField.set t c.Snapshot).map
      fun x => { c with Snapshot := x }
  | .ConnReadBufferSize =>
    (asScalar v >>= asInt).map fun x => { c with ConnReadBufferSize := x }
  | .ConnWriteBufferSize =>
    (asScalar v >>= asInt).map fun x => { c with ConnWriteBufferSize := x }
  | .ConnKeepaliveInterval =>
    (asScalar v >>= asInt).map fun x => { c with ConnKeepaliveInterval := x }
  | .TTLCheckInterval =>
    (asScalar v >>= asInt).map fun x => { c with TTLCheckInterval := x }

/-- Read a `Config` field as a document value; a sub-configuration reads as
a section. -/
def ConfigField.get (f : ConfigField) (c : Config) : Value :=
  match f with
  | .Addr => .scalar (.str c.Addr)
  | .HttpAddr => .scalar (.str c.HttpAddr)
  | .SlaveOf => .scalar (.str c.SlaveOf)
  | .Readonly => .scalar (.bool c.Readonly)
  | .DataDir => .scalar (.str c.DataDir)
  | .DBName => .scalar (.str c.DBName)
  | .DBPath => .scalar (.str c.DBPath)
  | .DBSyncCommit => .scalar (.int c.DBSyncCommit)
  | .LevelDB => .table (encodeStruct LevelDBConfig.fields LevelDBField.get c.LevelDB)
  | .RocksDB => .table (encodeStruct RocksDBConfig.fields RocksDBField.get c.RocksDB)
  | .LMDB => .table (encodeStruct LMDBConfig.fields LMDBField.get c.LMDB)
  | .AccessLog => .scalar (.str c.AccessLog)
  | .UseReplication => .scalar (.bool c.UseReplication)
  | .Replication =>
    .table (encodeStruct ReplicationConfig.fields ReplicationField.get c.Replication)
  | .Snapshot => .table (encodeStruct SnapshotConfig.fields SnapshotField.get c.Snapshot)
  | .ConnReadBufferSize => .scalar (.int c.ConnReadBufferSize)
  | .ConnWriteBufferSize => .scalar (.int c.ConnWriteBufferSize)
  | .ConnKeepaliveInterval => .scalar (.int c.ConnKeepaliveInterval)
  | .TTLCheckInterval => .scalar (.int c.TTLCheckInterval)

/-- The least integer the TOML reader and a Go `int` hold: `-2^63`. -/
def minInt64 : Int := -9223372036854775808

/-- The greatest integer the TOML reader and a Go `int` hold: `2^63 - 1`. -/
def maxInt64 : Int := 9223372036854775807

/-- Whether an integer is in the 64-bit range. -/
def fitsInt64 (n : Int) : Bool :=
  decide (minInt64 ≤ n ∧ n ≤ maxInt64)

/-- Whether the reader can hold the value: an integer must be a 64-bit
one. -/
def Scalar.fits : Scalar → Bool
  | .int n => fitsInt64 n
  | _ => true

/-- Whether the reader can hold the value, a section being held when each
of its values is. -/
def Value.fits : Value → Bool
  | .scalar v => v.fits
  | .table kvs => kvs.all fun kv => kv.2.fits

/-- Whether the reader can hold the table: every integer under every key,
bound to a field or not, is a 64-bit one. -/
def tableFits (t : Table) : Bool :=
  t.all fun kv => kv.2.fits

/-- The reader's error for an integer literal outside the 64-bit range. -/
def outOfRange : Error := Error.toml "integer out of range"

/-- Modelled from the spec: `toml.Decode(string(data), cfg)`.  Malformed text
is refused with the reader's error, and so is text with an integer outside
the 64-bit range, wherever it stands; any other table is decoded over
`cfg`. -/
def Decode (data : Data) (cfg : Config) : Except Error Config :=
  match data with
  | .malformed msg => .error (.toml msg)
  | .document t =>
    if tableFits t then unifyStruct Config.fields ConfigField.set t cfg
    else .error outOfRange

/-- Modelled from the spec: the table a faithful encoder writes for a
`Config`: every field but `FileName`, under its key, all three engine
sections included. -/
def Encode (cfg : Config) : Table :=
  encodeStruct Config.fields ConfigField.get cfg

/-! ## Loader (config.go, lines 121-146) -/

/-- Go `NewConfigWithData`: defaults, decode over them, adjust. -/
def NewConfigWithData (data : Data) : Except Error Config :=
  let cfg := NewConfigDefault
  match Decode data cfg with
  | .error err => .error err
  | .ok cfg => .ok cfg.adjust

/-! ## Files and the collaborators on the write side -/

/-- The operating system's error for a path that names no file. -/
def ENOENT : String := "no such file or directory"

/-- The operating system's error for creating a file that is already there. -/
def EEXIST : String := "file exists"

/-- A call the package makes to a collaborator when it serialises or
writes. -/
inductive Call
  | Encode (cfg : Config)
  | WriteFileAtomic (fileName : String) (data : Data)

/-- The world outside the package: what reading each path gives (the bytes of
the file, or the operating system's error, `ENOENT` for a path with no file),
and the calls made so far to the encoder and to the atomic writer. -/
structure World where
  file : String → Except String Data
  calls : List Call

/-- What the operating system lets one atomic write do. -/
inductive WriteOutcome
  | tempFileFails (msg : String)
  | writeFails (written : Data) (msg : String)
  | renameFails (msg : String)
  | done

/-- The behaviour of the collaborators, which the package does not decide:
what the encoder makes of a `Config` (its bytes, or its error), the non-empty
random suffix the temporary file of a write to a path gets, and how far the
operating system lets that write go. -/
structure Env where
  encode : Config → Except String Data
  tempSuffix : String → Char × List Char
  outcome : String → WriteOutcome

/-- The collaborators at their best: a faithful encoder, no write fails. -/
def Env.std : Env :=
  { encode := fun cfg => .ok (.document (Encode cfg)),
    tempSuffix := fun _ => ('0', []),
    outcome := fun _ => .done }

/-- The world after `path` has been given the content `d`. -/
def World.put (w : World) (path : String) (d : Data) : World :=
  { w with file := fun p => if p = path then .ok d else w.file p }

/-- The world after the file at `path` has been removed. -/
def World.remove (w : World) (path : String) : World :=
  { w with file := fun p => if p = path then .error ENOENT else w.file p }

/-- Modelled from the spec: `ioutil.ReadFile`.  The empty path names no
file; any other path gives what the world holds for it. -/
def ReadFile (w : World) (filename : String) : Except Error Data :=
  if filename = "" then .error (.os ENOENT)
  else
    match w.file filename with
    | .ok d => .ok d
    | .error msg => .error (.os msg)

/-- Go `NewConfigWithFile`: read the file, load its bytes, record the path. -/
def NewConfigWithFile (w : World) (fileName : String) : Except Error Config :=
  match ReadFile w fileName with
  | .error err => .error err
  | .ok data =>
    match NewConfigWithData data with
    | .error err => .error err
    | .ok cfg => .ok { cfg with FileName := fileName }

/-- Name of the temporary file of an atomic write to `filename`: the target
name followed by a non-empty suffix. -/
def tempName (env : Env) (filename : String) : String :=
  filename ++ String.mk ((env.tempSuffix filename).1 :: (env.tempSuffix filename).2)

/-- Modelled from the spec: `ioutil2.WriteFileAtomic` ("write to a temporary
file in the same directory, flush/sync, then rename over the destination";
"the original file is left untouched if the write or rename fails").  The
temporary file is created under a name no file has; a failed write removes
it again; only a successful rename gives the target path its new content,
and takes the temporary name away. -/
def WriteFileAtomic (env : Env) (filename : String) (data : Data) (w : World) :
    Option Error × World :=
  let w := { w with calls := w.calls ++ [Call.WriteFileAtomic filename data] }
  let tmp := tempName env filename
  match w.file tmp with
  | .ok _ => (some (.os EEXIST), w)
  | .error _ =>
    match env.outcome filename with
    | .tempFileFails msg => (some (.os msg), w)
    | .writeFails written msg => (some (.os msg), (w.put tmp written).remove tmp)
    | .renameFails msg => (some (.os msg), w.put tmp data)
    | .done => (none, ((w.put tmp data).put filename data).remove tmp)

/-! ## Dumper and Rewriter (config.go, lines 234-256) -/

/-- Method `(*Config).Dump`: run the encoder on the Config; the result is the bytes
the writer received, or the error. -/
def Config.Dump (env : Env) (cfg : Config) (w : World) : Except Error Data × World :=
  let w := { w with calls := w.calls ++ [Call.Encode cfg] }
  match env.encode cfg with
  | .error msg => (.error (.toml msg), w)
  | .ok b => (.ok b, w)

/-- Method `(*Config).DumpFile`: serialise into a buffer, then write the buffer
atomically; `none` is Go's `nil` error. -/
def Config.DumpFile (env : Env) (cfg : Config) (fileName : String) (w : World) :
    Option Error × World :=
  match cfg.Dump env w with
  | (.error err, w) => (some err, w)
  | (.ok b, w) => WriteFileAtomic env fileName b w

/-- Method `(*Config).Rewrite`: `ErrNoConfigFile` for an empty `FileName`, else
`DumpFile` to the recorded path. -/
def Config.Rewrite (env : Env) (cfg : Config) (w : World) : Option Error × World :=
  if cfg.FileName.length = 0 then (some Error.ErrNoConfigFile, w)
  else cfg.DumpFile env cfg.FileName w

/-! ## Leaves of the schema -/

/-- A field a document key can set: a top-level field of `Config` (a plain
field or a whole section), or a field inside one of the five sections. -/
inductive Leaf
  | top (f : ConfigField)
  | leveldb (f : LevelDBField)
  | rocksdb (f : RocksDBField)
  | lmdb (f : LMDBField)
  | replication (f : ReplicationField)
  | snapshot (f : SnapshotField)

/-- The value a Config holds at a leaf. -/
def Leaf.get (l : Leaf) (c : Config) : Value :=
  match l with
  | .top f => f.get c
  | .leveldb f => .scalar (f.get c.LevelDB)
  | .rocksdb f => .scalar (f.get c.RocksDB)
  | .lmdb f => .scalar (f.get c.LMDB)
  | .replication f => .scalar (f.get c.Replication)
  | .snapshot f => .scalar (f.get c.Snapshot)

/-- Whether the value `v` is a section with a key bound to the field `g`. -/
def sectionSets {F : Type} [DecidableEq F] (fields : List (String × F)) (g : F)
    (v : Value) : Bool :=
  match v with
  | .table kvs => kvs.any fun kv => decide (findField fields kv.1 = some g)
  | .scalar _ => false

/-- Whether the table `t` has a key bound to the leaf `l`: for a top-level
field a key bound to it, for a field of a section a key bound to the section
whose value is a table with a key bound to the field. -/
def Leaf.setBy (l : Leaf) (t : Table) : Bool :=
  match l with
  | .top f => t.any fun kv => decide (findField Config.fields kv.1 = some f)
  | .leveldb g => t.any fun kv =>
      decide (findField Config.fields kv.1 = some ConfigField.LevelDB) &&
        sectionSets LevelDBConfig.fields g kv.2
  | .rocksdb g => t.any fun kv =>
      decide (findField Config.fields kv.1 = some ConfigField.RocksDB) &&
        sectionSets RocksDBConfig.fields g kv.2
  | .lmdb g => t.any fun kv =>
      decide (findField Config.fields kv.1 = some ConfigField.LMDB) &&
        sectionSets LMDBConfig.fields g kv.2
  | .replication g => t.any fun kv =>
      decide (findField Config.fields kv.1 = some ConfigField.Replication) &&
        sectionSets ReplicationConfig.fields g kv.2
  | .snapshot g => t.any fun kv =>
      decide (findField Config.fields kv.1 = some ConfigField.Snapshot) &&
        sectionSets SnapshotConfig.fields g kv.2

/-! ## A concrete file, for examples -/

/-- A world whose only file, `ledis.conf`, holds the one-line document
`addr = "0.0.0.0:9999"`; no call has been made yet. -/
def exampleWorld : World :=
  { file := fun p =>
      if p = "ledis.conf" then
        .ok (.document [("addr", .scalar (.str "0.0.0.0:9999"))])
      else .error ENOENT,
    calls := [] }

/-- The Config loaded from `ledis.conf` in `exampleWorld`. -/
def exampleConfig : Config :=
  { NewConfigDefault with Addr := "0.0.0.0:9999", FileName := "ledis.conf" }

/-! ## The steps of an atomic write -/

/-- The bytes of a file that has just been created: empty text, which reads
as the empty table. -/
def emptyFile : Data := .document []

/-- Modelled from the spec: the worlds an atomic write passes through, in
order, from the call to its return ("write to a temporary file in the same
directory, flush/sync, then rename over the destination").  The temporary
file is created empty and written; a failed write removes it, a failed
rename leaves it, a successful rename moves it over the target in one
step.  The last world is the one `WriteFileAtomic` returns. -/
def WriteFileAtomicStates (env : Env) (filename : String) (data : Data) (w : World) :
    List World :=
  let w := { w with calls := w.calls ++ [Call.WriteFileAtomic filename data] }
  let tmp := tempName env filename
  match w.file tmp with
  | .ok _ => [w]
  | .error _ =>
    match env.outcome filename with
    | .tempFileFails _ => [w]
    | .writeFails written _ =>
      [w, w.put tmp emptyFile, w.put tmp written, (w.put tmp written).remove tmp]
    | .renameFails _ => [w, w.put tmp emptyFile, w.put tmp data]
    | .done =>
      [w, w.put tmp emptyFile, w.put tmp data,
        ((w.put tmp data).put filename data).remove tmp]

/-- Collaborators with a faithful encoder and a full disk: every write to the
temporary file stops after part of the bytes, with the operating system's
error. -/
def Env.diskFull : Env :=
  { encode := fun cfg => .ok (.document (Encode cfg)),
    tempSuffix := fun _ => ('0', []),
    outcome := fun _ =>
      .writeFails (.malformed "unexpected end of input") "no space left on device" }

/-! ## Basic facts about `getDefault` -/

theorem getDefault_pos (d s : Int) (h : 0 < s) : getDefault d s = s := by
  unfold getDefault
  rw [if_neg (not_le.mpr h)]

theorem getDefault_nonpos (d s : Int) (h : s ≤ 0) : getDefault d s = d := by
  unfold getDefault
  rw [if_pos h]

theorem getDefault_idem (d s : Int) (hd : 0 < d) :
    getDefault d (getDefault d s) = getDefault d s := by
  by_cases h : s ≤ 0
  · rw [getDefault_nonpos d s h, getDefault_pos d d hd]
  · rw [getDefault_pos d s (not_le.mp h), getDefault_pos d s (not_le.mp h)]

theorem LevelDBConfig_adjust_idem (c : LevelDBConfig) : c.adjust.adjust = c.adjust := by
  simp [LevelDBConfig.adjust, getDefault_idem, KB, MB]

theorem RocksDBConfig_adjust_idem (c : RocksDBConfig) : c.adjust.adjust = c.adjust := by
  simp [RocksDBConfig.adjust, getDefault_idem, KB, MB]

theorem Config_adjust_idem (c : Config) : c.adjust.adjust = c.adjust := by
  simp [Config.adjust, LevelDBConfig_adjust_idem, RocksDBConfig_adjust_idem,
    getDefault_idem, KB]

theorem getDefault_eq_ite (d s : Int) : getDefault d s = if s > 0 then s else d := by
  unfold getDefault
  by_cases h : s ≤ 0
  · rw [if_pos h, if_neg (not_lt.mpr h)]
  · rw [if_neg h, if_pos (not_le.mp h)]

/-! ## Decoding: what a stored value can change -/

theorem map_eq_ok {α β : Type} {f : α → β} {e : Except Error α} {b : β}
    (h : Except.map f e = Except.ok b) : ∃ a, e = Except.ok a ∧ b = f a := by
  cases e with
  | error err => simp [Except.map] at h
  | ok a => exact ⟨a, rfl, by simpa [Except.map] using h.symm⟩

theorem unifyStruct_frame {F S V α : Type} (fields : List (String × F))
    (set : F → V → S → Except Error S) (proj : S → α) (t : List (String × V)) :
    (∀ kv ∈ t, ∀ f s s1, findField fields kv.1 = some f →
        set f kv.2 s = Except.ok s1 → proj s1 = proj s) →
    ∀ s s1, unifyStruct fields set t s = Except.ok s1 → proj s1 = proj s := by
  induction t with
  | nil =>
    intro _ s s1 h
    simp only [unifyStruct, Except.ok.injEq] at h
    rw [h]
  | cons kv rest ih =>
    intro hk s s1 h
    obtain ⟨k, v⟩ := kv
    have hrest := ih (fun kv hm => hk kv (List.mem_cons_of_mem _ hm))
    unfold unifyStruct at h
    cases hf : findField fields k with
    | none =>
      simp only [hf] at h
      exact hrest s s1 h
    | some f =>
      simp only [hf] at h
      cases hs : set f v s with
      | error e => simp only [hs] at h; cases h
      | ok s2 =>
        simp only [hs] at h
        rw [hrest s2 s1 h]
        exact hk (k, v) (List.mem_cons_self _ _) f s s2 hf hs

theorem LevelDBField_get_set (g f : LevelDBField) (v : Scalar) (s s1 : LevelDBConfig)
    (h : g.set v s = Except.ok s1) (hne : g ≠ f) : f.get s1 = f.get s := by
  cases g <;> obtain ⟨x, _, rfl⟩ := map_eq_ok h <;> cases f <;>
    first | rfl | exact absurd rfl hne

theorem RocksDBField_get_set (g f : RocksDBField) (v : Scalar) (s s1 : RocksDBConfig)
    (h : g.set v s = Except.ok s1) (hne : g ≠ f) : f.get s1 = f.get s := by
  cases g <;> obtain ⟨x, _, rfl⟩ := map_eq_ok h <;> cases f <;>
    first | rfl | exact absurd rfl hne

theorem LMDBField_get_set (g f : LMDBField) (v : Scalar) (s s1 : LMDBConfig)
    (h : g.set v s = Except.ok s1) (hne : g ≠ f) : f.get s1 = f.get s := by
  cases g <;> obtain ⟨x, _, rfl⟩ := map_eq_ok h <;> cases f <;>
    first | rfl | exact absurd rfl hne

theorem ReplicationField_get_set (g f : ReplicationField) (v : Scalar)
    (s s1 : ReplicationConfig) (h : g.set v s = Except.ok s1) (hne : g ≠ f) :
    f.get s1 = f.get s := by
  cases g <;> obtain ⟨x, _, rfl⟩ := map_eq_ok h <;> cases f <;>
    first | rfl | exact absurd rfl hne

theorem SnapshotField_get_set (g f : SnapshotField) (v : Scalar) (s s1 : SnapshotConfig)
    (h : g.set v s = Except.ok s1) (hne : g ≠ f) : f.get s1 = f.get s := by
  cases g <;> obtain ⟨x, _, rfl⟩ := map_eq_ok h <;> cases f <;>
    first | rfl | exact absurd rfl hne

theorem ConfigField_get_set (g f : ConfigField) (v : Value) (s s1 : Config)
    (h : g.set v s = Except.ok s1) (hne : g ≠ f) : f.get s1 = f.get s := by
  cases g <;> obtain ⟨x, _, rfl⟩ := map_eq_ok h <;> cases f <;>
    first | rfl | exact absurd rfl hne

theorem ConfigField_fileName_set (g : ConfigField) (v : Value) (s s1 : Config)
    (h : g.set v s = Except.ok s1) : s1.FileName = s.FileName := by
  cases g <;> obtain ⟨x, _, rfl⟩ := map_eq_ok h <;> rfl

theorem section_frame {F S : Type} [DecidableEq F] (fields : List (String × F))
    (set : F → Scalar → S → Except Error S) (get : F → S → Scalar)
    (hgs : ∀ g f v s s1, set g v s = Except.ok s1 → g ≠ f → get f s1 = get f s)
    (g : F) (v : Value) (s x : S)
    (hx : (asTable v >>= fun t => unifyStruct fields set t s) = Except.ok x)
    (hn : sectionSets fields g v = false) : get g x = get g s := by
  cases v with
  | scalar a => simp [asTable, bind, Except.bind] at hx
  | table t =>
    simp only [asTable, bind, Except.bind] at hx
    refine unifyStruct_frame fields set (get g) t ?_ s x hx
    intro kv hm f s2 s3 hf hs
    refine hgs f g kv.2 s2 s3 hs ?_
    intro heq
    subst heq
    simp only [sectionSets, List.any_eq_false, decide_eq_true_eq] at hn
    exact hn kv hm hf

theorem ConfigField_set_LevelDB (h0 : ConfigField) (v : Value) (s s1 : Config)
    (h : h0.set v s = Except.ok s1) (g : LevelDBField)
    (hn : (decide (h0 = ConfigField.LevelDB) &&
      sectionSets LevelDBConfig.fields g v) = false) :
    g.get s1.LevelDB = g.get s.LevelDB := by
  cases h0 <;> obtain ⟨x, hx, rfl⟩ := map_eq_ok h <;> try rfl
  exact section_frame _ _ _ LevelDBField_get_set g v s.LevelDB x hx (by simpa using hn)

theorem ConfigField_set_RocksDB (h0 : ConfigField) (v : Value) (s s1 : Config)
    (h : h0.set v s = Except.ok s1) (g : RocksDBField)
    (hn : (decide (h0 = ConfigField.RocksDB) &&
      sectionSets RocksDBConfig.fields g v) = false) :
    g.get s1.RocksDB = g.get s.RocksDB := by
  cases h0 <;> obtain ⟨x, hx, rfl⟩ := map_eq_ok h <;> try rfl
  exact section_frame _ _ _ RocksDBField_get_set g v s.RocksDB x hx (by simpa using hn)

theorem ConfigField_set_LMDB (h0 : ConfigField) (v : Value) (s s1 : Config)
    (h : h0.set v s = Except.ok s1) (g : LMDBField)
    (hn : (decide (h0 = ConfigField.LMDB) &&
      sectionSets LMDBConfig.fields g v) = false) :
    g.get s1.LMDB = g.get s.LMDB := by
  cases h0 <;> obtain ⟨x, hx, rfl⟩ := map_eq_ok h <;> try rfl
  exact section_frame _ _ _ LMDBField_get_set g v s.LMDB x hx (by simpa using hn)

theorem ConfigField_set_Replication (h0 : ConfigField) (v : Value) (s s1 : Config)
    (h : h0.set v s = Except.ok s1) (g : ReplicationField)
    (hn : (decide (h0 = ConfigField.Replication) &&
      sectionSets ReplicationConfig.fields g v) = false) :
    g.get s1.Replication = g.get s.Replication := by
  cases h0 <;> obtain ⟨x, hx, rfl⟩ := map_eq_ok h <;> try rfl
  exact section_frame _ _ _ ReplicationField_get_set g v s.Replication x hx
    (by simpa using hn)

theorem ConfigField_set_Snapshot (h0 : ConfigField) (v : Value) (s s1 : Config)
    (h : h0.set v s = Except.ok s1) (g : SnapshotField)
    (hn : (decide (h0 = ConfigField.Snapshot) &&
      sectionSets SnapshotConfig.fields g v) = false) :
    g.get s1.Snapshot = g.get s.Snapshot := by
  cases h0 <;> obtain ⟨x, hx, rfl⟩ := map_eq_ok h <;> try rfl
  exact section_frame _ _ _ SnapshotField_get_set g v s.Snapshot x hx (by simpa using hn)

/-- Decoding a table leaves every leaf no key of the table is bound to as it
was. -/
theorem Leaf_get_unify (l : Leaf) (t : Table) (c c1 : Config)
    (h : unifyStruct Config.fields ConfigField.set t c = Except.ok c1)
    (hn : l.setBy t = false) : l.get c1 = l.get c := by
  refine unifyStruct_frame Config.fields ConfigField.set l.get t ?_ c c1 h
  intro kv hm f s s1 hf hs
  cases l with
  | top f0 =>
    simp only [Leaf.setBy, List.any_eq_false, decide_eq_true_eq] at hn
    exact ConfigField_get_set f f0 kv.2 s s1 hs (fun heq => hn kv hm (heq ▸ hf))
  | leveldb g =>
    simp only [Leaf.setBy, List.any_eq_false] at hn
    have h1 := hn kv hm
    rw [hf] at h1
    exact congrArg Value.scalar
      (ConfigField_set_LevelDB f kv.2 s s1 hs g (by simpa using h1))
  | rocksdb g =>
    simp only [Leaf.setBy, List.any_eq_false] at hn
    have h1 := hn kv hm
    rw [hf] at h1
    exact congrArg Value.scalar
      (ConfigField_set_RocksDB f kv.2 s s1 hs g (by simpa using h1))
  | lmdb g =>
    simp only [Leaf.setBy, List.any_eq_false] at hn
    have h1 := hn kv hm
    rw [hf] at h1
    exact congrArg Value.scalar
      (ConfigField_set_LMDB f kv.2 s s1 hs g (by simpa using h1))
  | replication g =>
    simp only [Leaf.setBy, List.any_eq_false] at hn
    have h1 := hn kv hm
    rw [hf] at h1
    exact congrArg Value.scalar
      (ConfigField_set_Replication f kv.2 s s1 hs g (by simpa using h1))
  | snapshot g =>
    simp only [Leaf.setBy, List.any_eq_false] at hn
    have h1 := hn kv hm
    rw [hf] at h1
    exact congrArg Value.scalar
      (ConfigField_set_Snapshot f kv.2 s s1 hs g (by simpa using h1))

theorem unify_fileName (t : Table) (c c1 : Config)
    (h : unifyStruct Config.fields ConfigField.set t c = Except.ok c1) :
    c1.FileName = c.FileName :=
  unifyStruct_frame Config.fields ConfigField.set Config.FileName t
    (fun kv _ f s s1 _ hs => ConfigField_fileName_set f kv.2 s s1 hs) c c1 h

/-! ## Adjusting: each leaf is adjusted from its own value -/

theorem LevelDBField_get_adjust (g : LevelDBField) (a b : LevelDBConfig)
    (h : g.get a = g.get b) : g.get a.adjust = g.get b.adjust := by
  cases g <;> simp only [LevelDBField.get, Scalar.int.injEq, Scalar.bool.injEq] at h <;>
    simp only [LevelDBField.get, LevelDBConfig.adjust, h]

theorem RocksDBField_get_adjust (g : RocksDBField) (a b : RocksDBConfig)
    (h : g.get a = g.get b) : g.get a.adjust = g.get b.adjust := by
  cases g <;> simp only [RocksDBField.get, Scalar.int.injEq, Scalar.bool.injEq] at h <;>
    simp only [RocksDBField.get, RocksDBConfig.adjust, h]

theorem ReplicationField_get_adjust (g : ReplicationField) (a b : Config)
    (h : g.get a.Replication = g.get b.Replication) :
    g.get a.adjust.Replication = g.get b.adjust.Replication := by
  cases g <;>
    simp only [ReplicationField.get, Scalar.int.injEq, Scalar.bool.injEq,
      Scalar.str.injEq] at h <;>
    simp only [ReplicationField.get, Config.adjust, h]

theorem LevelDBConfig_encode_inj (a b : LevelDBConfig)
    (h : encodeStruct LevelDBConfig.fields LevelDBField.get a =
      encodeStruct LevelDBConfig.fields LevelDBField.get b) : a = b := by
  cases a
  cases b
  simpa [encodeStruct, LevelDBConfig.fields, LevelDBField.get] using h

theorem RocksDBConfig_encode_inj (a b : RocksDBConfig)
    (h : encodeStruct RocksDBConfig.fields RocksDBField.get a =
      encodeStruct RocksDBConfig.fields RocksDBField.get b) : a = b := by
  cases a
  cases b
  simpa [encodeStruct, RocksDBConfig.fields, RocksDBField.get] using h

theorem ReplicationConfig_encode_inj (a b : ReplicationConfig)
    (h : encodeStruct ReplicationConfig.fields ReplicationField.get a =
      encodeStruct ReplicationConfig.fields ReplicationField.get b) : a = b := by
  cases a
  cases b
  simpa [encodeStruct, ReplicationConfig.fields, ReplicationField.get] using h

theorem ConfigField_get_adjust (f : ConfigField) (a b : Config)
    (h : f.get a = f.get b) : f.get a.adjust = f.get b.adjust := by
  cases f
  case LevelDB =>
    have e := LevelDBConfig_encode_inj _ _ (Value.table.inj h)
    show Value.table (encodeStruct _ _ a.LevelDB.adjust) =
      Value.table (encodeStruct _ _ b.LevelDB.adjust)
    rw [e]
  case RocksDB =>
    have e := RocksDBConfig_encode_inj _ _ (Value.table.inj h)
    show Value.table (encodeStruct _ _ a.RocksDB.adjust) =
      Value.table (encodeStruct _ _ b.RocksDB.adjust)
    rw [e]
  case Replication =>
    have e := ReplicationConfig_encode_inj _ _ (Value.table.inj h)
    simp only [ConfigField.get, Config.adjust, e]
  all_goals
    simp only [ConfigField.get, Value.scalar.injEq, Scalar.int.injEq, Scalar.bool.injEq,
      Scalar.str.injEq, Value.table.injEq] at h
    simp only [ConfigField.get, Config.adjust, h]

theorem Leaf_get_adjust (l : Leaf) (a b : Config) (h : l.get a = l.get b) :
    l.get a.adjust = l.get b.adjust := by
  cases l with
  | top f => exact ConfigField_get_adjust f a b h
  | leveldb g =>
    exact congrArg Value.scalar
      (LevelDBField_get_adjust g a.LevelDB b.LevelDB (Value.scalar.inj h))
  | rocksdb g =>
    exact congrArg Value.scalar
      (RocksDBField_get_adjust g a.RocksDB b.RocksDB (Value.scalar.inj h))
  | lmdb g => exact h
  | replication g =>
    exact congrArg Value.scalar (ReplicationField_get_adjust g a b (Value.scalar.inj h))
  | snapshot g => exact h

theorem NewConfigDefault_adjust : NewConfigDefault.adjust = NewConfigDefault :=
  Config_adjust_idem _

theorem NewConfigWithData_eq_ok (data : Data) (c : Config)
    (h : NewConfigWithData data = Except.ok c) :
    ∃ c0, Decode data NewConfigDefault = Except.ok c0 ∧ c = c0.adjust := by
  unfold NewConfigWithData at h
  cases hd : Decode data NewConfigDefault with
  | error e => simp only [hd] at h; cases h
  | ok c0 =>
    simp only [hd, Except.ok.injEq] at h
    exact ⟨c0, rfl, h.symm⟩

/-! ## Integers a document can hold -/

theorem Decode_document_ok (t : Table) (s c : Config)
    (h : Decode (Data.document t) s = Except.ok c) :
    tableFits t = true ∧ unifyStruct Config.fields ConfigField.set t s = Except.ok c := by
  unfold Decode at h
  by_cases hf : tableFits t = true
  · simp only [hf, if_true] at h
    exact ⟨hf, h⟩
  · simp only [hf] at h
    cases h

theorem Decode_document_of_fits (t : Table) (s : Config) (hf : tableFits t = true) :
    Decode (Data.document t) s = unifyStruct Config.fields ConfigField.set t s := by
  simp only [Decode, hf, if_true]

theorem unifyStruct_inv {F S V : Type} (fields : List (String × F))
    (set : F → V → S → Except Error S) (P : S → Prop) (Q : V → Prop)
    (hset : ∀ f v s s1, Q v → P s → set f v s = Except.ok s1 → P s1)
    (t : List (String × V)) :
    (∀ kv ∈ t, Q kv.2) → ∀ s s1, P s → unifyStruct fields set t s = Except.ok s1 → P s1 := by
  induction t with
  | nil =>
    intro _ s s1 hp h
    simp only [unifyStruct, Except.ok.injEq] at h
    rw [← h]
    exact hp
  | cons kv rest ih =>
    intro hq s s1 hp h
    obtain ⟨k, v⟩ := kv
    have hrest := ih (fun kv hm => hq kv (List.mem_cons_of_mem _ hm))
    unfold unifyStruct at h
    cases hf : findField fields k with
    | none =>
      simp only [hf] at h
      exact hrest s s1 hp h
    | some f =>
      simp only [hf] at h
      cases hs : set f v s with
      | error e => simp only [hs] at h; cases h
      | ok s2 =>
        simp only [hs] at h
        exact hrest s2 s1 (hset f v s s2 (hq (k, v) (List.mem_cons_self _ _)) hp hs) h

theorem encode_fits_of_forall {F S V : Type} (fields : List (String × F)) (get : F → S → V)
    (fit : V → Bool) (s : S) (h : ∀ f, fit (get f s) = true) :
    (encodeStruct fields get s).all (fun kv => fit kv.2) = true := by
  apply List.all_eq_true.mpr
  intro kv hkv
  obtain ⟨kf, _, rfl⟩ := List.mem_map.mp hkv
  exact h kf.2

theorem forall_fits_of_encode {F S V : Type} (fields : List (String × F)) (get : F → S → V)
    (fit : V → Bool) (hall : ∀ f, ∃ k, (k, f) ∈ fields) (s : S)
    (h : (encodeStruct fields get s).all (fun kv => fit kv.2) = true) :
    ∀ f, fit (get f s) = true := by
  intro f
  obtain ⟨k, hk⟩ := hall f
  exact List.all_eq_true.mp h (k, get f s) (List.mem_map.mpr ⟨(k, f), hk, rfl⟩)

theorem LevelDBConfig_fields_all (f : LevelDBField) : ∃ k, (k, f) ∈ LevelDBConfig.fields := by
  cases f <;> simp [LevelDBConfig.fields]

theorem RocksDBConfig_fields_all (f : RocksDBField) : ∃ k, (k, f) ∈ RocksDBConfig.fields := by
  cases f <;> simp [RocksDBConfig.fields]

theorem LMDBConfig_fields_all (f : LMDBField) : ∃ k, (k, f) ∈ LMDBConfig.fields := by
  cases f <;> simp [LMDBConfig.fields]

theorem ReplicationConfig_fields_all (f : ReplicationField) :
    ∃ k, (k, f) ∈ ReplicationConfig.fields := by
  cases f <;> simp [ReplicationConfig.fields]

theorem SnapshotConfig_fields_all (f : SnapshotField) : ∃ k, (k, f) ∈ SnapshotConfig.fields := by
  cases f <;> simp [SnapshotConfig.fields]

theorem Config_fields_all (f : ConfigField) : ∃ k, (k, f) ∈ Config.fields := by
  cases f <;> simp [Config.fields]

theorem LevelDBField_get_set_self (g : LevelDBField) (v : Scalar) (s s1 : LevelDBConfig)
    (h : g.set v s = Except.ok s1) : g.get s1 = v := by
  cases g <;> cases v <;> first | (cases h; rfl) | cases h

theorem RocksDBField_get_set_self (g : RocksDBField) (v : Scalar) (s s1 : RocksDBConfig)
    (h : g.set v s = Except.ok s1) : g.get s1 = v := by
  cases g <;> cases v <;> first | (cases h; rfl) | cases h

theorem LMDBField_get_set_self (g : LMDBField) (v : Scalar) (s s1 : LMDBConfig)
    (h : g.set v s = Except.ok s1) : g.get s1 = v := by
  cases g <;> cases v <;> first | (cases h; rfl) | cases h

theorem ReplicationField_get_set_self (g : ReplicationField) (v : Scalar)
    (s s1 : ReplicationConfig) (h : g.set v s = Except.ok s1) : g.get s1 = v := by
  cases g <;> cases v <;> first | (cases h; rfl) | cases h

theorem SnapshotField_get_set_self (g : SnapshotField) (v : Scalar) (s s1 : SnapshotConfig)
    (h : g.set v s = Except.ok s1) : g.get s1 = v := by
  cases g <;> cases v <;> first | (cases h; rfl) | cases h

theorem set_fits {F S : Type} (set : F → Scalar → S → Except Error S) (get : F → S → Scalar)
    (hgs : ∀ g f v s s1, set g v s = Except.ok s1 → g ≠ f → get f s1 = get f s)
    (hself : ∀ g v s s1, set g v s = Except.ok s1 → get g s1 = v)
    (g : F) (v : Scalar) (s s1 : S) (hv : v.fits = true)
    (hs : ∀ f, (get f s).fits = true) (h : set g v s = Except.ok s1) :
    ∀ f, (get f s1).fits = true := by
  intro f
  by_cases hfg : g = f
  · subst hfg
    rw [hself g v s s1 h]
    exact hv
  · rw [hgs g f v s s1 h hfg]
    exact hs f

theorem section_fits {F S : Type} (fields : List (String × F))
    (set : F → Scalar → S → Except Error S) (get : F → S → Scalar)
    (hgs : ∀ g f v s s1, set g v s = Except.ok s1 → g ≠ f → get f s1 = get f s)
    (hself : ∀ g v s s1, set g v s = Except.ok s1 → get g s1 = v)
    (v : Value) (s x : S)
    (hx : (asTable v >>= fun t => unifyStruct fields set t s) = Except.ok x)
    (hv : v.fits = true) (hs : ∀ f, (get f s).fits = true) :
    ∀ f, (get f x).fits = true := by
  cases v with
  | scalar a => simp [asTable, bind, Except.bind] at hx
  | table t =>
    simp only [asTable, bind, Except.bind] at hx
    refine unifyStruct_inv fields set (fun s => ∀ f, (get f s).fits = true)
      (fun v => v.fits = true) ?_ t ?_ s x hs hx
    · intro f v s2 s3 hq hp h
      exact set_fits set get hgs hself f v s2 s3 hq hp h
    · intro kv hm
      exact List.all_eq_true.mp hv kv hm

theorem scalar_field_fits {α : Type} (as : Scalar → Except Error α) (mk : α → Scalar)
    (has : ∀ a x, as a = Except.ok x → mk x = a)
    (v : Value) (x : α) (hx : (asScalar v >>= as) = Except.ok x) (hv : v.fits = true) :
    (Value.scalar (mk x)).fits = true := by
  cases v with
  | table t => simp [asScalar, bind, Except.bind] at hx
  | scalar a =>
    simp only [asScalar, bind, Except.bind] at hx
    rw [has a x hx]
    exact hv

theorem asString_ok (a : Scalar) (x : String) (h : asString a = Except.ok x) :
    Scalar.str x = a := by
  cases a <;> first | (cases h; rfl) | cases h

theorem asInt_ok (a : Scalar) (x : Int) (h : asInt a = Except.ok x) : Scalar.int x = a := by
  cases a <;> first | (cases h; rfl) | cases h

theorem asBool_ok (a : Scalar) (x : Bool) (h : asBool a = Except.ok x) :
    Scalar.bool x = a := by
  cases a <;> first | (cases h; rfl) | cases h

theorem ConfigField_set_fits_self (g : ConfigField) (v : Value) (s s1 : Config)
    (hv : v.fits = true) (hs : ∀ f, (ConfigField.get f s).fits = true)
    (h : g.set v s = Except.ok s1) : (ConfigField.get g s1).fits = true := by
  cases g
  case LevelDB =>
    obtain ⟨x, hx, rfl⟩ := map_eq_ok h
    exact encode_fits_of_forall _ _ Scalar.fits x
      (section_fits _ _ _ LevelDBField_get_set LevelDBField_get_set_self v _ x hx hv
        (forall_fits_of_encode _ _ Scalar.fits LevelDBConfig_fields_all _
          (hs ConfigField.LevelDB)))
  case RocksDB =>
    obtain ⟨x, hx, rfl⟩ := map_eq_ok h
    exact encode_fits_of_forall _ _ Scalar.fits x
      (section_fits _ _ _ RocksDBField_get_set RocksDBField_get_set_self v _ x hx hv
        (forall_fits_of_encode _ _ Scalar.fits RocksDBConfig_fields_all _
          (hs ConfigField.RocksDB)))
  case LMDB =>
    obtain ⟨x, hx, rfl⟩ := map_eq_ok h
    exact encode_fits_of_forall _ _ Scalar.fits x
      (section_fits _ _ _ LMDBField_get_set LMDBField_get_set_self v _ x hx hv
        (forall_fits_of_encode _ _ Scalar.fits LMDBConfig_fields_all _
          (hs ConfigField.LMDB)))
  case Replication =>
    obtain ⟨x, hx, rfl⟩ := map_eq_ok h
    exact encode_fits_of_forall _ _ Scalar.fits x
      (section_fits _ _ _ ReplicationField_get_set ReplicationField_get_set_self v _ x hx hv
        (forall_fits_of_encode _ _ Scalar.fits ReplicationConfig_fields_all _
          (hs ConfigField.Replication)))
  case Snapshot =>
    obtain ⟨x, hx, rfl⟩ := map_eq_ok h
    exact encode_fits_of_forall _ _ Scalar.fits x
      (section_fits _ _ _ SnapshotField_get_set SnapshotField_get_set_self v _ x hx hv
        (forall_fits_of_encode _ _ Scalar.fits SnapshotConfig_fields_all _
          (hs ConfigField.Snapshot)))
  all_goals
    obtain ⟨x, hx, rfl⟩ := map_eq_ok h
    first
      | exact scalar_field_fits asString Scalar.str asString_ok v x hx hv
      | exact scalar_field_fits asInt Scalar.int asInt_ok v x hx hv
      | exact scalar_field_fits asBool Scalar.bool asBool_ok v x hx hv

theorem ConfigField_set_fits (g : ConfigField) (v : Value) (s s1 : Config)
    (hv : v.fits = true) (hs : ∀ f, (ConfigField.get f s).fits = true)
    (h : g.set v s = Except.ok s1) : ∀ f, (ConfigField.get f s1).fits = true := by
  intro f
  by_cases hfg : g = f
  · subst hfg
    exact ConfigField_set_fits_self g v s s1 hv hs h
  · rw [ConfigField_get_set g f v s s1 h hfg]
    exact hs f

theorem Decode_fits (data : Data) (s c : Config) (h : Decode data s = Except.ok c)
    (hs : ∀ f, (ConfigField.get f s).fits = true) :
    ∀ f, (ConfigField.get f c).fits = true := by
  cases data with
  | malformed msg => cases h
  | document t =>
    obtain ⟨hf, hu⟩ := Decode_document_ok t s c h
    exact unifyStruct_inv Config.fields ConfigField.set
      (fun s => ∀ f, (ConfigField.get f s).fits = true) (fun v => v.fits = true)
      (fun f v s2 s3 hq hp h2 => ConfigField_set_fits f v s2 s3 hq hp h2) t
      (fun kv hm => List.all_eq_true.mp hf kv hm) s c hs hu

theorem getDefault_fits (d s : Int) (hd : fitsInt64 d = true) (hs : fitsInt64 s = true) :
    fitsInt64 (getDefault d s) = true := by
  unfold getDefault
  split <;> assumption

theorem LevelDBConfig_adjust_fits (a : LevelDBConfig)
    (h : ∀ g, (LevelDBField.get g a).fits = true) :
    ∀ g, (LevelDBField.get g a.adjust).fits = true := by
  intro g
  have hg := h g
  cases g <;>
    first
      | exact hg
      | exact getDefault_fits _ _ (by decide) hg

theorem RocksDBConfig_adjust_fits (a : RocksDBConfig)
    (h : ∀ g, (RocksDBField.get g a).fits = true) :
    ∀ g, (RocksDBField.get g a.adjust).fits = true := by
  intro g
  have hg := h g
  cases g <;>
    first
      | exact hg
      | exact getDefault_fits _ _ (by decide) hg

theorem Replication_adjust_fits (c : Config)
    (h : ∀ g, (ReplicationField.get g c.Replication).fits = true) :
    ∀ g, (ReplicationField.get g c.adjust.Replication).fits = true := by
  intro g
  have hg := h g
  cases g <;>
    first
      | exact hg
      | exact getDefault_fits _ _ (by decide) hg

theorem Config_adjust_fits (c : Config) (hs : ∀ f, (ConfigField.get f c).fits = true) :
    ∀ f, (ConfigField.get f c.adjust).fits = true := by
  intro f
  have hf := hs f
  cases f
  case LevelDB =>
    exact encode_fits_of_forall _ _ Scalar.fits _
      (LevelDBConfig_adjust_fits c.LevelDB
        (forall_fits_of_encode _ _ Scalar.fits LevelDBConfig_fields_all _ hf))
  case RocksDB =>
    exact encode_fits_of_forall _ _ Scalar.fits _
      (RocksDBConfig_adjust_fits c.RocksDB
        (forall_fits_of_encode _ _ Scalar.fits RocksDBConfig_fields_all _ hf))
  case Replication =>
    exact encode_fits_of_forall _ _ Scalar.fits _
      (Replication_adjust_fits c
        (forall_fits_of_encode _ _ Scalar.fits ReplicationConfig_fields_all _ hf))
  all_goals
    first
      | exact hf
      | exact getDefault_fits _ _ (by decide) hf

theorem NewConfigDefault_fits : ∀ f, (ConfigField.get f NewConfigDefault).fits = true := by
  intro f
  cases f <;> decide

/-- Every integer of a Config the loader returns is a 64-bit one: what the
encoder writes for it is text the reader accepts. -/
theorem NewConfigWithData_fits (data : Data) (c : Config)
    (h : NewConfigWithData data = Except.ok c) : tableFits (Encode c) = true := by
  obtain ⟨c0, hd, rfl⟩ := NewConfigWithData_eq_ok _ _ h
  exact encode_fits_of_forall Config.fields ConfigField.get Value.fits _
    (Config_adjust_fits c0 (Decode_fits data _ c0 hd NewConfigDefault_fits))

/-! ## Encoding, then decoding -/

theorem LevelDBConfig_unify_encode (a s : LevelDBConfig) :
    unifyStruct LevelDBConfig.fields LevelDBField.set
      (encodeStruct LevelDBConfig.fields LevelDBField.get a) s = Except.ok a := rfl

theorem RocksDBConfig_unify_encode (a s : RocksDBConfig) :
    unifyStruct RocksDBConfig.fields RocksDBField.set
      (encodeStruct RocksDBConfig.fields RocksDBField.get a) s = Except.ok a := rfl

theorem LMDBConfig_unify_encode (a s : LMDBConfig) :
    unifyStruct LMDBConfig.fields LMDBField.set
      (encodeStruct LMDBConfig.fields LMDBField.get a) s = Except.ok a := rfl

theorem ReplicationConfig_unify_encode (a s : ReplicationConfig) :
    unifyStruct ReplicationConfig.fields ReplicationField.set
      (encodeStruct ReplicationConfig.fields ReplicationField.get a) s = Except.ok a := rfl

theorem SnapshotConfig_unify_encode (a s : SnapshotConfig) :
    unifyStruct SnapshotConfig.fields SnapshotField.set
      (encodeStruct SnapshotConfig.fields SnapshotField.get a) s = Except.ok a := rfl

/-- Decoding what the encoder writes for `c` over any Config gives `c`, but
for `FileName`, which is not written and stays as it was. -/
theorem Decode_Encode (c s : Config) (hc : tableFits (Encode c) = true) :
    Decode (Data.document (Encode c)) s = Except.ok { c with FileName := s.FileName } := by
  rw [Decode_document_of_fits _ _ hc]
  rfl

theorem Config_adjust_fileName (c : Config) (p : String) :
    ({ c with FileName := p } : Config).adjust = { c.adjust with FileName := p } := rfl

theorem NewConfigWithData_fileName (data : Data) (c : Config)
    (h : NewConfigWithData data = Except.ok c) : c.FileName = "" := by
  obtain ⟨c0, hd, rfl⟩ := NewConfigWithData_eq_ok _ _ h
  cases data with
  | malformed msg => cases hd
  | document t => exact unify_fileName t _ _ (Decode_document_ok t _ _ hd).2

theorem NewConfigWithData_adjusted (data : Data) (c : Config)
    (h : NewConfigWithData data = Except.ok c) : c.adjust = c := by
  obtain ⟨c0, _, rfl⟩ := NewConfigWithData_eq_ok _ _ h
  exact Config_adjust_idem c0

theorem NewConfigWithFile_eq_ok (w : World) (path : String) (c : Config)
    (h : NewConfigWithFile w path = Except.ok c) :
    path ≠ "" ∧ ∃ data c1, w.file path = Except.ok data ∧
      NewConfigWithData data = Except.ok c1 ∧ c = { c1 with FileName := path } := by
  unfold NewConfigWithFile ReadFile at h
  by_cases hp : path = ""
  · simp only [hp, if_true] at h
    cases h
  · simp only [hp, if_false] at h
    refine ⟨hp, ?_⟩
    cases hf : w.file path with
    | error msg => simp only [hf] at h; cases h
    | ok data =>
      simp only [hf] at h
      cases hd : NewConfigWithData data with
      | error e => simp only [hd] at h; cases h
      | ok c1 =>
        simp only [hd, Except.ok.injEq] at h
        exact ⟨data, c1, rfl, hd, h.symm⟩

theorem round_trip_of_adjusted (c : Config) (h : c.adjust = c)
    (hc : tableFits (Encode c) = true) :
    NewConfigWithData (Data.document (Encode c)) = Except.ok { c with FileName := "" } := by
  simp only [NewConfigWithData, Decode_Encode c _ hc]
  have h0 : NewConfigDefault.FileName = "" := rfl
  rw [h0, Config_adjust_fileName, h]

theorem eq_empty_of_length_eq_zero (s : String) (h : s.length = 0) : s = "" := by
  cases s with
  | mk data =>
    have hd : data = [] := List.length_eq_zero.mp h
    subst hd
    rfl

/-! ## C1: adjust is idempotent -/

/-- C1: `Config.adjust` is idempotent: for every `Config` (any integers in
every field) adjusting twice gives exactly the Config adjusting once gives. -/
theorem C1_adjust_idempotent (c : Config) : c.adjust.adjust = c.adjust := by
  simp [Config.adjust, LevelDBConfig_adjust_idem, RocksDBConfig_adjust_idem,
    getDefault_idem, KB]

/-! ## C2: which fields the loader normalises -/

/-- C2 (as stated, refuted): a document that sets `lmdb.map_size = -1`,
`replication.wait_sync_time = 0`, `replication.wait_max_slave_acks = -3` and
`snapshot.max_num = 0` decodes, and the Config `NewConfigWithData` returns
holds -1, 0, -3 and 0 there, not the defaults 20 MB, 500, 2 and 1. -/
theorem C2_counterexample :
    NewConfigWithData (Data.document
      [("lmdb", Value.table [("map_size", Scalar.int (-1))]),
       ("replication", Value.table [("wait_sync_time", Scalar.int 0),
          ("wait_max_slave_acks", Scalar.int (-3))]),
       ("snapshot", Value.table [("max_num", Scalar.int 0)])]) =
      Except.ok { NewConfigDefault with
        LMDB := { NewConfigDefault.LMDB with MapSize := -1 },
        Replication := { NewConfigDefault.Replication with
          WaitSyncTime := 0, WaitMaxSlaveAcks := -3 },
        Snapshot := { NewConfigDefault.Snapshot with MaxNum := 0 } } ∧
    (-1 : Int) ≠ 20 * MB ∧ (0 : Int) ≠ 500 ∧ (-3 : Int) ≠ 2 ∧ (0 : Int) ≠ 1 := by
  refine ⟨?_, by decide, by decide, by decide, by decide⟩
  rfl

/-- C2 (amended): for every document that decodes successfully,
`NewConfigWithData` returns a Config in which each integer field that
`adjust` normalises (the 4 LevelDB fields, the 19 RocksDB fields,
Replication.ExpiredLogDays, ConnReadBufferSize, ConnWriteBufferSize,
TTLCheckInterval) holds its default whenever its parsed value is zero or
negative, while LMDB.MapSize, Replication.WaitSyncTime,
Replication.WaitMaxSlaveAcks and Snapshot.MaxNum hold their parsed value
whatever its sign. -/
theorem C2_loader_normalises_adjusted_fields (data : Data) (c0 : Config)
    (h : Decode data NewConfigDefault = Except.ok c0) :
    ∃ c, NewConfigWithData data = Except.ok c ∧
      ((c0.LevelDB.CacheSize ≤ 0 → c.LevelDB.CacheSize = 4194304) ∧
       (c0.LevelDB.BlockSize ≤ 0 → c.LevelDB.BlockSize = 4096) ∧
       (c0.LevelDB.WriteBufferSize ≤ 0 → c.LevelDB.WriteBufferSize = 4194304) ∧
       (c0.LevelDB.MaxOpenFiles ≤ 0 → c.LevelDB.MaxOpenFiles = 1024)) ∧
      ((c0.RocksDB.CacheSize ≤ 0 → c.RocksDB.CacheSize = 4194304) ∧
       (c0.RocksDB.BlockSize ≤ 0 → c.RocksDB.BlockSize = 4096) ∧
       (c0.RocksDB.WriteBufferSize ≤ 0 → c.RocksDB.WriteBufferSize = 4194304) ∧
       (c0.RocksDB.MaxOpenFiles ≤ 0 → c.RocksDB.MaxOpenFiles = 1024) ∧
       (c0.RocksDB.MaxWriteBufferNum ≤ 0 → c.RocksDB.MaxWriteBufferNum = 2) ∧
       (c0.RocksDB.MinWriteBufferNumberToMerge ≤ 0 →
          c.RocksDB.MinWriteBufferNumberToMerge = 1) ∧
       (c0.RocksDB.NumLevels ≤ 0 → c.RocksDB.NumLevels = 7) ∧
       (c0.RocksDB.Level0FileNumCompactionTrigger ≤ 0 →
          c.RocksDB.Level0FileNumCompactionTrigger = 4) ∧
       (c0.RocksDB.Level0SlowdownWritesTrigger ≤ 0 →
          c.RocksDB.Level0SlowdownWritesTrigger = 16) ∧
       (c0.RocksDB.Level0StopWritesTrigger ≤ 0 →
          c.RocksDB.Level0StopWritesTrigger = 64) ∧
       (c0.RocksDB.TargetFileSizeBase ≤ 0 → c.RocksDB.TargetFileSizeBase = 33554432) ∧
       (c0.RocksDB.TargetFileSizeMultiplier ≤ 0 →
          c.RocksDB.TargetFileSizeMultiplier = 1) ∧
       (c0.RocksDB.MaxBytesForLevelBase ≤ 0 →
          c.RocksDB.MaxBytesForLevelBase = 33554432) ∧
       (c0.RocksDB.MaxBytesForLevelMultiplier ≤ 0 →
          c.RocksDB.MaxBytesForLevelMultiplier = 1) ∧
       (c0.RocksDB.MaxBackgroundCompactions ≤ 0 →
          c.RocksDB.MaxBackgroundCompactions = 1) ∧
       (c0.RocksDB.MaxBackgroundFlushes ≤ 0 → c.RocksDB.MaxBackgroundFlushes = 1) ∧
       (c0.RocksDB.StatsDumpPeriodSec ≤ 0 → c.RocksDB.StatsDumpPeriodSec = 3600) ∧
       (c0.RocksDB.BackgroundThreads ≤ 0 → c.RocksDB.BackgroundThreads = 2) ∧
       (c0.RocksDB.HighPriorityBackgroundThreads ≤ 0 →
          c.RocksDB.HighPriorityBackgroundThreads = 1)) ∧
      ((c0.Replication.ExpiredLogDays ≤ 0 → c.Replication.ExpiredLogDays = 7) ∧
       (c0.ConnReadBufferSize ≤ 0 → c.ConnReadBufferSize = 4096) ∧
       (c0.ConnWriteBufferSize ≤ 0 → c.ConnWriteBufferSize = 4096) ∧
       (c0.TTLCheckInterval ≤ 0 → c.TTLCheckInterval = 1)) ∧
      (c.LMDB.MapSize = c0.LMDB.MapSize ∧
       c.Replication.WaitSyncTime = c0.Replication.WaitSyncTime ∧
       c.Replication.WaitMaxSlaveAcks = c0.Replication.WaitMaxSlaveAcks ∧
       c.Snapshot.MaxNum = c0.Snapshot.MaxNum) := by
  refine ⟨c0.adjust, ?_, ⟨?_, ?_, ?_, ?_⟩,
    ⟨?_, ?_, ?_, ?_, ?_, ?_, ?_, ?_, ?_, ?_, ?_, ?_, ?_, ?_, ?_, ?_, ?_, ?_, ?_⟩,
    ⟨?_, ?_, ?_, ?_⟩, ⟨rfl, rfl, rfl, rfl⟩⟩
  · simp only [NewConfigWithData, h]
  all_goals
    intro hle
    simp only [Config.adjust, LevelDBConfig.adjust, RocksDBConfig.adjust,
      getDefault_nonpos _ _ hle, KB, MB]
    try norm_num

/-- C2 (amended), at a concrete document: `leveldb.cache_size = -5` and
`lmdb.map_size = -1` decode, the loader succeeds, the cache size becomes
4194304 and the map size stays -1. -/
theorem C2_loader_normalises_adjusted_fields_witness :
    Decode (Data.document
        [("leveldb", Value.table [("cache_size", Scalar.int (-5))]),
         ("lmdb", Value.table [("map_size", Scalar.int (-1))])]) NewConfigDefault =
      Except.ok { NewConfigDefault with
        LevelDB := { NewConfigDefault.LevelDB with CacheSize := -5 },
        LMDB := { NewConfigDefault.LMDB with MapSize := -1 } } ∧
    ∃ c, NewConfigWithData (Data.document
        [("leveldb", Value.table [("cache_size", Scalar.int (-5))]),
         ("lmdb", Value.table [("map_size", Scalar.int (-1))])]) = Except.ok c ∧
      c.LevelDB.CacheSize = 4194304 ∧ c.LMDB.MapSize = -1 := by
  refine ⟨rfl, ?_⟩
  obtain ⟨c, hc, hl, _, _, hk⟩ := C2_loader_normalises_adjusted_fields
    (Data.document
        [("leveldb", Value.table [("cache_size", Scalar.int (-5))]),
         ("lmdb", Value.table [("map_size", Scalar.int (-1))])])
    { NewConfigDefault with
        LevelDB := { NewConfigDefault.LevelDB with CacheSize := -5 },
        LMDB := { NewConfigDefault.LMDB with MapSize := -1 } } (by rfl)
  exact ⟨c, hc, hl.1 (by decide), hk.1⟩

/-! ## C3: the four shared engine fields -/

/-- C3: for `LevelDBConfig.adjust` and `RocksDBConfig.adjust` alike, each of
CacheSize, BlockSize, WriteBufferSize, MaxOpenFiles is the input when the
input is positive and else its default (4 MB = 4194304, 4 KB = 4096,
4 MB = 4194304, 1024); and inside `Config.adjust` each engine section is
adjusted from its own input alone. -/
theorem C3_engine_shared_defaults (l : LevelDBConfig) (r : RocksDBConfig) (c : Config) :
    (4 * MB = 4194304 ∧ 4 * KB = 4096) ∧
    (l.adjust.CacheSize = (if l.CacheSize > 0 then l.CacheSize else 4194304) ∧
     l.adjust.BlockSize = (if l.BlockSize > 0 then l.BlockSize else 4096) ∧
     l.adjust.WriteBufferSize =
       (if l.WriteBufferSize > 0 then l.WriteBufferSize else 4194304) ∧
     l.adjust.MaxOpenFiles = (if l.MaxOpenFiles > 0 then l.MaxOpenFiles else 1024)) ∧
    (r.adjust.CacheSize = (if r.CacheSize > 0 then r.CacheSize else 4194304) ∧
     r.adjust.BlockSize = (if r.BlockSize > 0 then r.BlockSize else 4096) ∧
     r.adjust.WriteBufferSize =
       (if r.WriteBufferSize > 0 then r.WriteBufferSize else 4194304) ∧
     r.adjust.MaxOpenFiles = (if r.MaxOpenFiles > 0 then r.MaxOpenFiles else 1024)) ∧
    (c.adjust.LevelDB = c.LevelDB.adjust ∧ c.adjust.RocksDB = c.RocksDB.adjust) := by
  refine ⟨⟨by decide, by decide⟩, ⟨?_, ?_, ?_, ?_⟩, ⟨?_, ?_, ?_, ?_⟩, ⟨rfl, rfl⟩⟩ <;>
    simp only [LevelDBConfig.adjust, RocksDBConfig.adjust, getDefault_eq_ite, KB, MB] <;>
    norm_num

/-! ## C4: the four top-level fields -/

/-- C4: after `Config.adjust`, Replication.ExpiredLogDays, ConnReadBufferSize,
ConnWriteBufferSize and TTLCheckInterval are the input when it is positive,
else 7, 4096, 4096 and 1. -/
theorem C4_top_level_defaults (c : Config) :
    c.adjust.Replication.ExpiredLogDays =
      (if c.Replication.ExpiredLogDays > 0 then c.Replication.ExpiredLogDays else 7) ∧
    c.adjust.ConnReadBufferSize =
      (if c.ConnReadBufferSize > 0 then c.ConnReadBufferSize else 4096) ∧
    c.adjust.ConnWriteBufferSize =
      (if c.ConnWriteBufferSize > 0 then c.ConnWriteBufferSize else 4096) ∧
    c.adjust.TTLCheckInterval =
      (if c.TTLCheckInterval > 0 then c.TTLCheckInterval else 1) := by
  refine ⟨?_, ?_, ?_, ?_⟩ <;>
    simp only [Config.adjust, getDefault_eq_ite, KB] <;> norm_num

/-! ## C5, C6: the default configuration -/

/-- C5: the static defaults of `NewConfigDefault()`: Addr "127.0.0.1:6380",
empty HttpAddr, DataDir "./var", DBName "goleveldb", empty AccessLog,
LMDB.MapSize 20 MB = 20971520 with NoSync set, replication off,
WaitSyncTime 500, WaitMaxSlaveAcks 2, SyncLog 0, replication compression on,
Snapshot.MaxNum 1. -/
theorem C5_default_static_values :
    NewConfigDefault.Addr = "127.0.0.1:6380" ∧
    NewConfigDefault.HttpAddr = "" ∧
    NewConfigDefault.DataDir = "./var" ∧
    NewConfigDefault.DBName = "goleveldb" ∧
    NewConfigDefault.AccessLog = "" ∧
    NewConfigDefault.LMDB.MapSize = 20 * MB ∧
    NewConfigDefault.LMDB.MapSize = 20971520 ∧
    NewConfigDefault.LMDB.NoSync = true ∧
    NewConfigDefault.UseReplication = false ∧
    NewConfigDefault.Replication.WaitSyncTime = 500 ∧
    NewConfigDefault.Replication.WaitMaxSlaveAcks = 2 ∧
    NewConfigDefault.Replication.SyncLog = 0 ∧
    NewConfigDefault.Replication.Compression = true ∧
    NewConfigDefault.Snapshot.MaxNum = 1 := by
  refine ⟨?_, ?_, ?_, ?_, ?_, ?_, ?_, ?_, ?_, ?_, ?_, ?_, ?_, ?_⟩ <;> decide

/-- C6: default-completeness: in `NewConfigDefault()` every field with a
documented default holds exactly that default, and every one of them is
strictly positive. -/
theorem C6_default_completeness :
    (NewConfigDefault.LevelDB.CacheSize = 4194304 ∧
     NewConfigDefault.LevelDB.BlockSize = 4096 ∧
     NewConfigDefault.LevelDB.WriteBufferSize = 4194304 ∧
     NewConfigDefault.LevelDB.MaxOpenFiles = 1024) ∧
    (NewConfigDefault.RocksDB.CacheSize = 4194304 ∧
     NewConfigDefault.RocksDB.BlockSize = 4096 ∧
     NewConfigDefault.RocksDB.WriteBufferSize = 4194304 ∧
     NewConfigDefault.RocksDB.MaxOpenFiles = 1024 ∧
     NewConfigDefault.RocksDB.MaxWriteBufferNum = 2 ∧
     NewConfigDefault.RocksDB.MinWriteBufferNumberToMerge = 1 ∧
     NewConfigDefault.RocksDB.NumLevels = 7 ∧
     NewConfigDefault.RocksDB.Level0FileNumCompactionTrigger = 4 ∧
     NewConfigDefault.RocksDB.Level0SlowdownWritesTrigger = 16 ∧
     NewConfigDefault.RocksDB.Level0StopWritesTrigger = 64 ∧
     NewConfigDefault.RocksDB.TargetFileSizeBase = 33554432 ∧
     NewConfigDefault.RocksDB.TargetFileSizeMultiplier = 1 ∧
     NewConfigDefault.RocksDB.MaxBytesForLevelBase = 33554432 ∧
     NewConfigDefault.RocksDB.MaxBytesForLevelMultiplier = 1 ∧
     NewConfigDefault.RocksDB.MaxBackgroundCompactions = 1 ∧
     NewConfigDefault.RocksDB.MaxBackgroundFlushes = 1 ∧
     NewConfigDefault.RocksDB.StatsDumpPeriodSec = 3600 ∧
     NewConfigDefault.RocksDB.BackgroundThreads = 2 ∧
     NewConfigDefault.RocksDB.HighPriorityBackgroundThreads = 1) ∧
    (NewConfigDefault.ConnReadBufferSize = 4096 ∧
     NewConfigDefault.ConnWriteBufferSize = 4096 ∧
     NewConfigDefault.Replication.ExpiredLogDays = 7 ∧
     NewConfigDefault.TTLCheckInterval = 1 ∧
     NewConfigDefault.LMDB.MapSize = 20971520 ∧
     NewConfigDefault.Replication.WaitSyncTime = 500 ∧
     NewConfigDefault.Replication.WaitMaxSlaveAcks = 2 ∧
     NewConfigDefault.Snapshot.MaxNum = 1) ∧
    (∀ x ∈ [NewConfigDefault.LevelDB.CacheSize, NewConfigDefault.LevelDB.BlockSize,
        NewConfigDefault.LevelDB.WriteBufferSize, NewConfigDefault.LevelDB.MaxOpenFiles,
        NewConfigDefault.RocksDB.CacheSize, NewConfigDefault.RocksDB.BlockSize,
        NewConfigDefault.RocksDB.WriteBufferSize, NewConfigDefault.RocksDB.MaxOpenFiles,
        NewConfigDefault.RocksDB.MaxWriteBufferNum,
        NewConfigDefault.RocksDB.MinWriteBufferNumberToMerge,
        NewConfigDefault.RocksDB.NumLevels,
        NewConfigDefault.RocksDB.Level0FileNumCompactionTrigger,
        NewConfigDefault.RocksDB.Level0SlowdownWritesTrigger,
        NewConfigDefault.RocksDB.Level0StopWritesTrigger,
        NewConfigDefault.RocksDB.TargetFileSizeBase,
        NewConfigDefault.RocksDB.TargetFileSizeMultiplier,
        NewConfigDefault.RocksDB.MaxBytesForLevelBase,
        NewConfigDefault.RocksDB.MaxBytesForLevelMultiplier,
        NewConfigDefault.RocksDB.MaxBackgroundCompactions,
        NewConfigDefault.RocksDB.MaxBackgroundFlushes,
        NewConfigDefault.RocksDB.StatsDumpPeriodSec,
        NewConfigDefault.RocksDB.BackgroundThreads,
        NewConfigDefault.RocksDB.HighPriorityBackgroundThreads,
        NewConfigDefault.ConnReadBufferSize, NewConfigDefault.ConnWriteBufferSize,
        NewConfigDefault.Replication.ExpiredLogDays, NewConfigDefault.TTLCheckInterval,
        NewConfigDefault.LMDB.MapSize, NewConfigDefault.Replication.WaitSyncTime,
        NewConfigDefault.Replication.WaitMaxSlaveAcks, NewConfigDefault.Snapshot.MaxNum],
      (0 : Int) < x) := by
  refine ⟨⟨?_, ?_, ?_, ?_⟩,
    ⟨?_, ?_, ?_, ?_, ?_, ?_, ?_, ?_, ?_, ?_, ?_, ?_, ?_, ?_, ?_, ?_, ?_, ?_, ?_⟩,
    ⟨?_, ?_, ?_, ?_, ?_, ?_, ?_, ?_⟩, ?_⟩ <;> decide

/-! ## C7: partial override -/

/-- C7: partial-override preservation.  A document whose only key is
`addr = a` loads successfully into the default Config with `Addr` replaced
by `a`, every other field as in `NewConfigDefault()`; and for every document
that loads, every leaf of the schema that no key of the document is bound to
holds its `NewConfigDefault()` value in the loaded Config. -/
theorem C7_override_preservation (a : String) :
    NewConfigWithData (Data.document [("addr", Value.scalar (Scalar.str a))]) =
      Except.ok { NewConfigDefault with Addr := a } ∧
    ∀ (t : Table) (c : Config) (l : Leaf),
      NewConfigWithData (Data.document t) = Except.ok c → l.setBy t = false →
      l.get c = l.get NewConfigDefault := by
  refine ⟨rfl, ?_⟩
  intro t c l h hn
  obtain ⟨c0, hd, rfl⟩ := NewConfigWithData_eq_ok _ _ h
  have h1 := Leaf_get_adjust l c0 NewConfigDefault (Leaf_get_unify l t _ _ (Decode_document_ok t _ _ hd).2 hn)
  rw [NewConfigDefault_adjust] at h1
  exact h1

/-- C7 at the document `addr = "0.0.0.0:9999"`: the loaded Config is the
default one with that address, and its LevelDB cache size, which the document
does not set, is the default's. -/
theorem C7_override_preservation_witness :
    NewConfigWithData (Data.document [("addr", Value.scalar (Scalar.str "0.0.0.0:9999"))]) =
      Except.ok { NewConfigDefault with Addr := "0.0.0.0:9999" } ∧
    (Leaf.leveldb LevelDBField.CacheSize).get
        { NewConfigDefault with Addr := "0.0.0.0:9999" } =
      (Leaf.leveldb LevelDBField.CacheSize).get NewConfigDefault :=
  ⟨(C7_override_preservation "0.0.0.0:9999").1,
   (C7_override_preservation "0.0.0.0:9999").2
     [("addr", Value.scalar (Scalar.str "0.0.0.0:9999"))] _
     (Leaf.leveldb LevelDBField.CacheSize)
     (C7_override_preservation "0.0.0.0:9999").1 (by decide)⟩

/-! ## C8: invalid values are replaced, not rejected -/

/-- C8 (as stated, refuted): `-9223372036854775809` is an integer `<= 0`, but
it is below the 64-bit range; the document
`leveldb.cache_size = -9223372036854775809` is refused by the reader, and
`NewConfigWithData` returns that error and no Config. -/
theorem C8_counterexample :
    (-9223372036854775809 : Int) ≤ 0 ∧
    NewConfigWithData (Data.document
        [("leveldb", Value.table [("cache_size", Scalar.int (-9223372036854775809))])]) =
      Except.error outOfRange :=
  ⟨by decide, rfl⟩

/-- C8 (amended): invalid-value substitution, for 64-bit integers.  For every
integer `v` with `-2^63 <= v <= 0` the document `leveldb.cache_size = v` is
not rejected: it loads, and into the default Config, whose
`LevelDB.CacheSize` is 4 MB = 4194304 and not `v`.  For an integer below
`-2^63` the document is refused with the reader's error.  Any document that
decodes with `leveldb.cache_size` parsed as `v <= 0` loads with
`LevelDB.CacheSize = 4194304`. -/
theorem C8_invalid_value_substitution (v : Int) (hlo : -9223372036854775808 ≤ v)
    (hv : v ≤ 0) :
    NewConfigWithData (Data.document
        [("leveldb", Value.table [("cache_size", Scalar.int v)])]) =
      Except.ok NewConfigDefault ∧
    NewConfigDefault.LevelDB.CacheSize = 4 * MB ∧
    NewConfigDefault.LevelDB.CacheSize = 4194304 ∧
    NewConfigDefault.LevelDB.CacheSize ≠ v ∧
    (∀ u : Int, u < -9223372036854775808 →
      NewConfigWithData (Data.document
          [("leveldb", Value.table [("cache_size", Scalar.int u)])]) =
        Except.error outOfRange) ∧
    ∀ (data : Data) (c0 : Config), Decode data NewConfigDefault = Except.ok c0 →
      c0.LevelDB.CacheSize = v →
      ∃ c, NewConfigWithData data = Except.ok c ∧ c.LevelDB.CacheSize = 4194304 := by
  have hg : getDefault (4 * MB) v = 4 * MB := getDefault_nonpos _ _ hv
  refine ⟨?_, by decide, by decide, ?_, ?_, ?_⟩
  · have hfit : tableFits [("leveldb", Value.table [("cache_size", Scalar.int v)])] = true := by
      simp only [tableFits, Value.fits, Scalar.fits, fitsInt64, minInt64, maxInt64,
        List.all_cons, List.all_nil, Bool.and_true, decide_eq_true_eq]
      omega
    have hd : Decode (Data.document
        [("leveldb", Value.table [("cache_size", Scalar.int v)])]) NewConfigDefault =
        Except.ok { NewConfigDefault with
          LevelDB := { NewConfigDefault.LevelDB with CacheSize := v } } := by
      rw [Decode_document_of_fits _ _ hfit]
      rfl
    simp only [NewConfigWithData, hd, Config.adjust, LevelDBConfig.adjust, hg]
    rfl
  · have h4 : NewConfigDefault.LevelDB.CacheSize = 4194304 := by decide
    rw [h4]
    omega
  · intro u hu
    have hfit : tableFits [("leveldb", Value.table [("cache_size", Scalar.int u)])] = false := by
      simp only [tableFits, Value.fits, Scalar.fits, fitsInt64, minInt64, maxInt64,
        List.all_cons, List.all_nil, Bool.and_true, decide_eq_false_iff_not]
      omega
    simp only [NewConfigWithData, Decode, hfit]
    rfl
  · intro data c0 hd hc
    refine ⟨c0.adjust, by simp only [NewConfigWithData, hd], ?_⟩
    simp only [Config.adjust, LevelDBConfig.adjust, hc, hg]
    decide

/-- C8 (amended) at `v = -5`: the document `leveldb.cache_size = -5` loads,
and the loaded Config has `LevelDB.CacheSize = 4194304`. -/
theorem C8_invalid_value_substitution_witness :
    (-9223372036854775808 : Int) ≤ -5 ∧ (-5 : Int) ≤ 0 ∧
    NewConfigWithData (Data.document
        [("leveldb", Value.table [("cache_size", Scalar.int (-5))])]) =
      Except.ok NewConfigDefault ∧
    NewConfigDefault.LevelDB.CacheSize = 4194304 :=
  ⟨by decide, by decide,
    (C8_invalid_value_substitution (-5) (by decide) (by decide)).1,
    (C8_invalid_value_substitution (-5) (by decide) (by decide)).2.2.1⟩

/-! ## C9: load, dump, load again -/

/-- C9 (as stated, refuted): the Config loaded from the file `ledis.conf`
carries `FileName = "ledis.conf"`; dumping it with a faithful encoder and
loading the bytes with `NewConfigWithData` succeeds, but yields a Config with
an empty `FileName`, which is not the Config that was dumped. -/
theorem C9_counterexample :
    NewConfigWithFile exampleWorld "ledis.conf" = Except.ok exampleConfig ∧
    (exampleConfig.Dump Env.std exampleWorld).1 =
      Except.ok (Data.document (Encode exampleConfig)) ∧
    NewConfigWithData (Data.document (Encode exampleConfig)) =
      Except.ok { exampleConfig with FileName := "" } ∧
    ({ exampleConfig with FileName := "" } : Config) ≠ exampleConfig := by
  refine ⟨rfl, rfl, rfl, ?_⟩
  intro h
  have h1 := congrArg Config.FileName h
  exact absurd h1 (by decide)

/-- C9 (amended): round-trip stability up to `FileName`.  For every Config
`c` produced by the Loader (`NewConfigWithData` or `NewConfigWithFile`) and an
encoder that is faithful on `c`, `Dump` succeeds, and loading the bytes it
produced with `NewConfigWithData` succeeds and yields `c` with `FileName`
reset to the empty string: equal to `c` in every serialised field.  The
result is `c` itself when `c` came from `NewConfigWithData`; when `c` came
from `NewConfigWithFile path`, `c.FileName` is the non-empty `path` and the
result differs from `c` in `FileName` alone. -/
theorem C9_round_trip_up_to_FileName (env : Env) (w w0 : World) (data : Data)
    (path : String) (c : Config)
    (hload : NewConfigWithData data = Except.ok c ∨
      NewConfigWithFile w path = Except.ok c)
    (henc : env.encode c = Except.ok (Data.document (Encode c))) :
    ∃ b, (c.Dump env w0).1 = Except.ok b ∧
      NewConfigWithData b = Except.ok { c with FileName := "" } ∧
      (NewConfigWithData data = Except.ok c → NewConfigWithData b = Except.ok c) ∧
      (NewConfigWithFile w path = Except.ok c →
        c.FileName = path ∧ path ≠ "" ∧ NewConfigWithData b ≠ Except.ok c) := by
  have hadj : c.adjust = c := by
    rcases hload with h | h
    · exact NewConfigWithData_adjusted data c h
    · obtain ⟨_, d, c1, _, h1, rfl⟩ := NewConfigWithFile_eq_ok w path c h
      rw [Config_adjust_fileName, NewConfigWithData_adjusted d c1 h1]
  have hfit : tableFits (Encode c) = true := by
    rcases hload with h | h
    · exact NewConfigWithData_fits data c h
    · obtain ⟨_, d, c1, _, h1, rfl⟩ := NewConfigWithFile_eq_ok w path c h
      exact NewConfigWithData_fits d c1 h1
  have hrt := round_trip_of_adjusted c hadj hfit
  refine ⟨Data.document (Encode c), ?_, hrt, ?_, ?_⟩
  · simp only [Config.Dump, henc]
  · intro h
    have hf := NewConfigWithData_fileName data c h
    rw [hrt]
    congr 1
    cases c
    simp only at hf
    simp only [hf]
  · intro h
    obtain ⟨hp, d, c1, _, _, rfl⟩ := NewConfigWithFile_eq_ok w path c h
    refine ⟨rfl, hp, ?_⟩
    rw [hrt]
    intro he
    have h1 := congrArg Config.FileName (Except.ok.inj he)
    exact hp h1.symm

/-- C9 (amended) at the Config loaded from `ledis.conf`: dumping it and
loading the bytes gives the same Config with an empty `FileName`. -/
theorem C9_round_trip_up_to_FileName_witness :
    NewConfigWithFile exampleWorld "ledis.conf" = Except.ok exampleConfig ∧
    ∃ b, (exampleConfig.Dump Env.std exampleWorld).1 = Except.ok b ∧
      NewConfigWithData b = Except.ok { exampleConfig with FileName := "" } := by
  refine ⟨rfl, ?_⟩
  obtain ⟨b, h1, h2, _⟩ := C9_round_trip_up_to_FileName Env.std exampleWorld exampleWorld
    (Data.document []) "ledis.conf" exampleConfig (Or.inr rfl) rfl
  exact ⟨b, h1, h2⟩

/-! ## C10: Rewrite needs a file name -/

/-- C10: `Rewrite` returns `ErrNoConfigFile` exactly when `FileName` is
empty, and then neither calls the encoder nor writes (the world, with its
record of calls, is as before); in particular so on `NewConfigDefault()` and
on every Config `NewConfigWithData` returns. -/
theorem C10_rewrite_requires_origin (env : Env) (cfg : Config) (w : World) :
    (cfg.FileName = "" → cfg.Rewrite env w = (some Error.ErrNoConfigFile, w)) ∧
    ((cfg.Rewrite env w).1 = some Error.ErrNoConfigFile → cfg.FileName = "") ∧
    NewConfigDefault.Rewrite env w = (some Error.ErrNoConfigFile, w) ∧
    (∀ data c, NewConfigWithData data = Except.ok c →
      c.Rewrite env w = (some Error.ErrNoConfigFile, w)) := by
  have hempty : ∀ c : Config, c.FileName = "" →
      c.Rewrite env w = (some Error.ErrNoConfigFile, w) := by
    intro c h
    simp [Config.Rewrite, h]
  refine ⟨hempty cfg, ?_, hempty _ rfl, ?_⟩
  · intro h
    by_contra hne
    have hlen : cfg.FileName.length ≠ 0 := by
      intro h0
      exact hne (eq_empty_of_length_eq_zero _ h0)
    simp only [Config.Rewrite, hlen, if_false, Config.DumpFile, Config.Dump] at h
    cases he : env.encode cfg with
    | error msg => simp [he] at h
    | ok b =>
      simp only [he, WriteFileAtomic] at h
      split at h
      · simp at h
      · split at h <;> simp at h
  · intro data c h
    exact hempty c (NewConfigWithData_fileName data c h)

/-- C10 at the default Config, with the standard collaborators and the
example world: `Rewrite` answers `ErrNoConfigFile` and changes nothing,
while the Config loaded from `ledis.conf` is rewritten without error. -/
theorem C10_rewrite_requires_origin_witness :
    NewConfigDefault.FileName = "" ∧
    NewConfigDefault.Rewrite Env.std exampleWorld =
      (some Error.ErrNoConfigFile, exampleWorld) ∧
    (exampleConfig.Rewrite Env.std exampleWorld).1 = none :=
  ⟨rfl, (C10_rewrite_requires_origin Env.std NewConfigDefault exampleWorld).1 rfl, rfl⟩

/-! ## Facts about the world of files -/

theorem tempName_ne (env : Env) (filename : String) : tempName env filename ≠ filename := by
  intro h
  have hl := congrArg String.length h
  unfold tempName at hl
  rw [String.length_append] at hl
  have h2 : (String.mk ((env.tempSuffix filename).1 :: (env.tempSuffix filename).2)).length =
      (env.tempSuffix filename).2.length + 1 := rfl
  rw [h2] at hl
  omega

theorem put_file_of_ne (w : World) (path : String) (d : Data) (p : String) (h : p ≠ path) :
    (w.put path d).file p = w.file p := by
  simp only [World.put, if_neg h]

theorem remove_file_of_ne (w : World) (path : String) (p : String) (h : p ≠ path) :
    (w.remove path).file p = w.file p := by
  simp only [World.remove, if_neg h]

theorem put_file_self (w : World) (path : String) (d : Data) :
    (w.put path d).file path = Except.ok d := by
  simp only [World.put, if_true]

/-! ## C11: loading from a file -/

/-- C11: `NewConfigWithFile(path)` returns a failed read's error unchanged,
with no Config; when the read yields bytes `d` its outcome is that of
`NewConfigWithData(d)`, a loaded Config being the `NewConfigWithData(d)` one
with `FileName` set to `path`.  `NewConfigDefault()` and every Config
`NewConfigWithData` returns have an empty `FileName`, whatever the document
holds. -/
theorem C11_load_from_file (w : World) (path : String) :
    (∀ e, ReadFile w path = Except.error e → NewConfigWithFile w path = Except.error e) ∧
    (∀ d, ReadFile w path = Except.ok d →
      (∀ e, NewConfigWithData d = Except.error e →
        NewConfigWithFile w path = Except.error e) ∧
      (∀ c, NewConfigWithData d = Except.ok c →
        NewConfigWithFile w path = Except.ok { c with FileName := path })) ∧
    NewConfigDefault.FileName = "" ∧
    (∀ data c, NewConfigWithData data = Except.ok c → c.FileName = "") := by
  refine ⟨?_, ?_, rfl, NewConfigWithData_fileName⟩
  · intro e h
    simp only [NewConfigWithFile, h]
  · intro d h
    refine ⟨?_, ?_⟩
    · intro e he
      simp only [NewConfigWithFile, h, he]
    · intro c hc
      simp only [NewConfigWithFile, h, hc]

/-- C11 in the example world: reading `missing.conf` fails with the
operating system's error and so does the load; `ledis.conf` loads as its
bytes do, with `FileName = "ledis.conf"`. -/
theorem C11_load_from_file_witness :
    NewConfigWithFile exampleWorld "missing.conf" = Except.error (Error.os ENOENT) ∧
    NewConfigWithFile exampleWorld "ledis.conf" =
      Except.ok { ({ NewConfigDefault with Addr := "0.0.0.0:9999" } : Config) with
        FileName := "ledis.conf" } :=
  ⟨(C11_load_from_file exampleWorld "missing.conf").1 (Error.os ENOENT) rfl,
   ((C11_load_from_file exampleWorld "ledis.conf").2.1
      (Data.document [("addr", Value.scalar (Scalar.str "0.0.0.0:9999"))]) rfl).2
      { NewConfigDefault with Addr := "0.0.0.0:9999" } rfl⟩

/-! ## C12: when loading bytes fails -/

/-- C12: `NewConfigWithData` fails exactly when decoding fails.  A decoder
error is returned unchanged, with no Config; when decoding succeeds there is
no error and the Config returned is `adjust` of the decoded-over-defaults
Config, `adjust` being total. -/
theorem C12_load_fails_iff_decode_fails (data : Data) :
    (∀ e, Decode data NewConfigDefault = Except.error e →
      NewConfigWithData data = Except.error e) ∧
    (∀ c0, Decode data NewConfigDefault = Except.ok c0 →
      NewConfigWithData data = Except.ok c0.adjust) ∧
    (∀ e, NewConfigWithData data = Except.error e →
      Decode data NewConfigDefault = Except.error e) := by
  refine ⟨?_, ?_, ?_⟩
  · intro e h
    simp only [NewConfigWithData, h]
  · intro c0 h
    simp only [NewConfigWithData, h]
  · intro e h
    cases hd : Decode data NewConfigDefault with
    | error e1 =>
      simp only [NewConfigWithData, hd, Except.error.injEq] at h
      rw [h]
    | ok c0 => simp only [NewConfigWithData, hd] at h; cases h

/-- C12 at two documents: malformed text is refused with the reader's error,
and a string under the integer key `db_sync_commit` with the decoder's
type-mismatch error; the empty document loads as the default Config. -/
theorem C12_load_fails_iff_decode_fails_witness :
    NewConfigWithData (Data.malformed "bad syntax") = Except.error (Error.toml "bad syntax") ∧
    NewConfigWithData (Data.document [("db_sync_commit", Value.scalar (Scalar.str "x"))]) =
      Except.error mismatch ∧
    NewConfigWithData (Data.document []) = Except.ok NewConfigDefault :=
  ⟨(C12_load_fails_iff_decode_fails (Data.malformed "bad syntax")).1 _ rfl,
   (C12_load_fails_iff_decode_fails
      (Data.document [("db_sync_commit", Value.scalar (Scalar.str "x"))])).1 _ rfl,
   ((C12_load_fails_iff_decode_fails (Data.document [])).2.1 NewConfigDefault rfl).trans
      (congrArg Except.ok NewConfigDefault_adjust)⟩

/-! ## C13: the keys of the top-level fields -/

/-- C13 (the code at the failing input): the key `conn_keepalive_interval`
is bound to no field, since the tag of `ConnKeepaliveInterval` is spelled
`conn_keepavlie_interval`.  For every 64-bit integer `n`, a document setting
`conn_keepalive_interval = n` loads as the default Config, with
`ConnKeepaliveInterval = 0`; the key as misspelled in the tag does set the
field.  The other twelve listed keys are bound to their fields. -/
theorem C13_keepalive_key_is_misspelled (n : Int)
    (hn : -9223372036854775808 ≤ n ∧ n ≤ 9223372036854775807) :
    findField Config.fields "conn_keepalive_interval" = none ∧
    NewConfigWithData (Data.document
        [("conn_keepalive_interval", Value.scalar (Scalar.int n))]) =
      Except.ok NewConfigDefault ∧
    NewConfigDefault.ConnKeepaliveInterval = 0 ∧
    NewConfigWithData (Data.document
        [("conn_keepavlie_interval", Value.scalar (Scalar.int n))]) =
      Except.ok { NewConfigDefault with ConnKeepaliveInterval := n } ∧
    (findField Config.fields "addr" = some ConfigField.Addr ∧
     findField Config.fields "http_addr" = some ConfigField.HttpAddr ∧
     findField Config.fields "slaveof" = some ConfigField.SlaveOf ∧
     findField Config.fields "data_dir" = some ConfigField.DataDir ∧
     findField Config.fields "db_name" = some ConfigField.DBName ∧
     findField Config.fields "db_path" = some ConfigField.DBPath ∧
     findField Config.fields "db_sync_commit" = some ConfigField.DBSyncCommit ∧
     findField Config.fields "access_log" = some ConfigField.AccessLog ∧
     findField Config.fields "use_replication" = some ConfigField.UseReplication ∧
     findField Config.fields "conn_read_buffer_size" = some ConfigField.ConnReadBufferSize ∧
     findField Config.fields "conn_write_buffer_size" =
       some ConfigField.ConnWriteBufferSize ∧
     findField Config.fields "ttl_check_interval" = some ConfigField.TTLCheckInterval) := by
  have hfit : ∀ key : String,
      tableFits [(key, Value.scalar (Scalar.int n))] = true := by
    intro key
    simp only [tableFits, Value.fits, Scalar.fits, fitsInt64, minInt64, maxInt64,
      List.all_cons, List.all_nil, Bool.and_true, decide_eq_true_eq]
    exact hn
  refine ⟨by decide, ?_, rfl, ?_, ?_⟩
  · have hd : Decode (Data.document
        [("conn_keepalive_interval", Value.scalar (Scalar.int n))]) NewConfigDefault =
        Except.ok NewConfigDefault := by
      rw [Decode_document_of_fits _ _ (hfit _)]
      rfl
    simp only [NewConfigWithData, hd, NewConfigDefault_adjust]
  · have hd : Decode (Data.document
        [("conn_keepavlie_interval", Value.scalar (Scalar.int n))]) NewConfigDefault =
        Except.ok { NewConfigDefault with ConnKeepaliveInterval := n } := by
      rw [Decode_document_of_fits _ _ (hfit _)]
      rfl
    simp only [NewConfigWithData, hd]
    rfl
  · refine ⟨?_, ?_, ?_, ?_, ?_, ?_, ?_, ?_, ?_, ?_, ?_, ?_⟩ <;> decide

/-- C13 at the failing input `conn_keepalive_interval = 30`: the key is bound
to no field, the document loads as the default Config, and there
`ConnKeepaliveInterval` is 0, not 30. -/
theorem C13_keepalive_key_is_misspelled_witness :
    findField Config.fields "conn_keepalive_interval" = none ∧
    NewConfigWithData (Data.document
        [("conn_keepalive_interval", Value.scalar (Scalar.int 30))]) =
      Except.ok NewConfigDefault ∧
    NewConfigDefault.ConnKeepaliveInterval = 0 ∧
    NewConfigDefault.ConnKeepaliveInterval ≠ 30 :=
  ⟨(C13_keepalive_key_is_misspelled 30 (by decide)).1,
   (C13_keepalive_key_is_misspelled 30 (by decide)).2.1,
   (C13_keepalive_key_is_misspelled 30 (by decide)).2.2.1,
   by decide⟩

/-! ## C14: units -/

/-- C14: unit-scale correctness.  `KB = 1024`, `MB = 1024*KB = 1048576`,
`GB = 1024*MB = 1073741824`, all below `2^63`; and the size defaults of
`NewConfigDefault` and `adjust` are exact multiples of a unit: 4 KB for the
block and connection buffer sizes, 4 MB for the cache and write-buffer sizes,
32 MB for the RocksDB file-size and level bases, 20 MB for the LMDB map. -/
theorem C14_unit_scale :
    (KB = 1024 ∧ MB = 1024 * KB ∧ MB = 1048576 ∧ GB = 1024 * MB ∧ GB = 1073741824 ∧
     GB < 2 ^ 63) ∧
    (NewConfigDefault.LevelDB.BlockSize = 4 * KB ∧
     NewConfigDefault.RocksDB.BlockSize = 4 * KB ∧
     NewConfigDefault.ConnReadBufferSize = 4 * KB ∧
     NewConfigDefault.ConnWriteBufferSize = 4 * KB ∧
     NewConfigDefault.LevelDB.CacheSize = 4 * MB ∧
     NewConfigDefault.LevelDB.WriteBufferSize = 4 * MB ∧
     NewConfigDefault.RocksDB.CacheSize = 4 * MB ∧
     NewConfigDefault.RocksDB.WriteBufferSize = 4 * MB ∧
     NewConfigDefault.RocksDB.TargetFileSizeBase = 32 * MB ∧
     NewConfigDefault.RocksDB.MaxBytesForLevelBase = 32 * MB ∧
     NewConfigDefault.LMDB.MapSize = 20 * MB) ∧
    (KB ∣ 4 * KB ∧ MB ∣ 4 * MB ∧ MB ∣ 20 * MB ∧ MB ∣ 32 * MB) := by
  refine ⟨?_, ?_, ⟨Dvd.intro_left 4 rfl, Dvd.intro_left 4 rfl, Dvd.intro_left 20 rfl,
    Dvd.intro_left 32 rfl⟩⟩
  · refine ⟨?_, ?_, ?_, ?_, ?_, ?_⟩ <;> decide
  · refine ⟨?_, ?_, ?_, ?_, ?_, ?_, ?_, ?_, ?_, ?_, ?_⟩ <;> decide

/-! ## C15: atomic dump -/

/-- C15: atomic dump.  If `DumpFile` returns an error, the target path reads
afterwards exactly as it did before.  If serialisation fails, the encoder's
error is returned and no write is attempted: only the encoder call is
recorded and no file changes.  If serialisation yields bytes `b`, then in
every world the atomic write passes through, the last being the one
`DumpFile` returns, the target path reads as before the call or, only when
the dump succeeds, holds all of `b`: never a partially written file. -/
theorem C15_atomic_dump (env : Env) (cfg : Config) (fileName : String) (w : World) :
    ((cfg.DumpFile env fileName w).1 ≠ none →
      (cfg.DumpFile env fileName w).2.file fileName = w.file fileName) ∧
    (∀ msg, env.encode cfg = Except.error msg →
      cfg.DumpFile env fileName w =
        (some (Error.toml msg), { w with calls := w.calls ++ [Call.Encode cfg] })) ∧
    (∀ b, env.encode cfg = Except.ok b →
      (WriteFileAtomicStates env fileName b (cfg.Dump env w).2).getLast? =
        some (cfg.DumpFile env fileName w).2 ∧
      ∀ s ∈ WriteFileAtomicStates env fileName b (cfg.Dump env w).2,
        s.file fileName = w.file fileName ∨
        ((cfg.DumpFile env fileName w).1 = none ∧ s.file fileName = Except.ok b)) := by
  have hne : fileName ≠ tempName env fileName := fun h => tempName_ne env fileName h.symm
  refine ⟨?_, ?_, ?_⟩
  · intro herr
    cases he : env.encode cfg with
    | error msg => simp only [Config.DumpFile, Config.Dump, he]
    | ok b =>
      simp only [Config.DumpFile, Config.Dump, he, WriteFileAtomic] at herr ⊢
      cases h1 : w.file (tempName env fileName) with
      | ok d => simp only [h1]
      | error e =>
        cases h2 : env.outcome fileName with
        | tempFileFails m => simp only [h1, h2]
        | writeFails wr m =>
          simp only [h1, h2, remove_file_of_ne _ _ _ hne, put_file_of_ne _ _ _ _ hne]
        | renameFails m => simp only [h1, h2, put_file_of_ne _ _ _ _ hne]
        | done =>
          simp only [h1, h2] at herr
          exact absurd rfl herr
  · intro msg he
    simp only [Config.DumpFile, Config.Dump, he]
  · intro b he
    simp only [Config.DumpFile, Config.Dump, he, WriteFileAtomic, WriteFileAtomicStates]
    split
    · refine ⟨rfl, ?_⟩
      intro s hs
      simp only [List.mem_singleton] at hs
      subst hs
      exact Or.inl rfl
    · split
      · refine ⟨rfl, ?_⟩
        intro s hs
        simp only [List.mem_singleton] at hs
        subst hs
        exact Or.inl rfl
      · refine ⟨rfl, ?_⟩
        intro s hs
        simp only [List.mem_cons, List.mem_singleton, List.not_mem_nil, or_false] at hs
        rcases hs with rfl | rfl | rfl | rfl
        · exact Or.inl rfl
        · exact Or.inl (put_file_of_ne _ _ _ _ hne)
        · exact Or.inl (put_file_of_ne _ _ _ _ hne)
        · exact Or.inl (by
            simp only [remove_file_of_ne _ _ _ hne, put_file_of_ne _ _ _ _ hne])
      · refine ⟨rfl, ?_⟩
        intro s hs
        simp only [List.mem_cons, List.mem_singleton, List.not_mem_nil, or_false] at hs
        rcases hs with rfl | rfl | rfl
        · exact Or.inl rfl
        · exact Or.inl (put_file_of_ne _ _ _ _ hne)
        · exact Or.inl (put_file_of_ne _ _ _ _ hne)
      · refine ⟨rfl, ?_⟩
        intro s hs
        simp only [List.mem_cons, List.mem_singleton, List.not_mem_nil, or_false] at hs
        rcases hs with rfl | rfl | rfl | rfl
        · exact Or.inl rfl
        · exact Or.inl (put_file_of_ne _ _ _ _ hne)
        · exact Or.inl (put_file_of_ne _ _ _ _ hne)
        · exact Or.inr ⟨rfl, by
            simp only [remove_file_of_ne _ _ _ hne, put_file_self]⟩

/-- C15 with a full disk: dumping the Config loaded from `ledis.conf` back to
`ledis.conf` fails with the operating system's error, and `ledis.conf` reads
as before. -/
theorem C15_atomic_dump_witness :
    (exampleConfig.DumpFile Env.diskFull "ledis.conf" exampleWorld).1 =
      some (Error.os "no space left on device") ∧
    (exampleConfig.DumpFile Env.diskFull "ledis.conf" exampleWorld).2.file "ledis.conf" =
      Except.ok (Data.document [("addr", Value.scalar (Scalar.str "0.0.0.0:9999"))]) :=
  ⟨rfl, (C15_atomic_dump Env.diskFull exampleConfig "ledis.conf" exampleWorld).1
    (by simp [show (exampleConfig.DumpFile Env.diskFull "ledis.conf" exampleWorld).1 =
      some (Error.os "no space left on device") from rfl])⟩

/-! ## C16: the RocksDB tunables -/

/-- C16: after `RocksDBConfig.adjust` each of the fifteen further tunables is
its input when the input is positive and else its default
(MaxWriteBufferNum 2, MinWriteBufferNumberToMerge 1, NumLevels 7,
Level0FileNumCompactionTrigger 4, Level0SlowdownWritesTrigger 16,
Level0StopWritesTrigger 64, TargetFileSizeBase 32 MB,
TargetFileSizeMultiplier 1, MaxBytesForLevelBase 32 MB,
MaxBytesForLevelMultiplier 1, MaxBackgroundCompactions 1,
MaxBackgroundFlushes 1, StatsDumpPeriodSec 3600, BackgroundThreads 2,
HighPriorityBackgroundThreads 1); and when the three level-0 triggers are all
defaulted they are ordered compaction < slowdown < stop. -/
theorem C16_rocksdb_tunables (r : RocksDBConfig) :
    (r.adjust.MaxWriteBufferNum =
       (if r.MaxWriteBufferNum > 0 then r.MaxWriteBufferNum else 2) ∧
     r.adjust.MinWriteBufferNumberToMerge =
       (if r.MinWriteBufferNumberToMerge > 0 then r.MinWriteBufferNumberToMerge else 1) ∧
     r.adjust.NumLevels = (if r.NumLevels > 0 then r.NumLevels else 7) ∧
     r.adjust.Level0FileNumCompactionTrigger =
       (if r.Level0FileNumCompactionTrigger > 0 then r.Level0FileNumCompactionTrigger
        else 4) ∧
     r.adjust.Level0SlowdownWritesTrigger =
       (if r.Level0SlowdownWritesTrigger > 0 then r.Level0SlowdownWritesTrigger else 16) ∧
     r.adjust.Level0StopWritesTrigger =
       (if r.Level0StopWritesTrigger > 0 then r.Level0StopWritesTrigger else 64) ∧
     r.adjust.TargetFileSizeBase =
       (if r.TargetFileSizeBase > 0 then r.TargetFileSizeBase else 32 * MB) ∧
     r.adjust.TargetFileSizeMultiplier =
       (if r.TargetFileSizeMultiplier > 0 then r.TargetFileSizeMultiplier else 1) ∧
     r.adjust.MaxBytesForLevelBase =
       (if r.MaxBytesForLevelBase > 0 then r.MaxBytesForLevelBase else 32 * MB) ∧
     r.adjust.MaxBytesForLevelMultiplier =
       (if r.MaxBytesForLevelMultiplier > 0 then r.MaxBytesForLevelMultiplier else 1) ∧
     r.adjust.MaxBackgroundCompactions =
       (if r.MaxBackgroundCompactions > 0 then r.MaxBackgroundCompactions else 1) ∧
     r.adjust.MaxBackgroundFlushes =
       (if r.MaxBackgroundFlushes > 0 then r.MaxBackgroundFlushes else 1) ∧
     r.adjust.StatsDumpPeriodSec =
       (if r.StatsDumpPeriodSec > 0 then r.StatsDumpPeriodSec else 3600) ∧
     r.adjust.BackgroundThreads =
       (if r.BackgroundThreads > 0 then r.BackgroundThreads else 2) ∧
     r.adjust.HighPriorityBackgroundThreads =
       (if r.HighPriorityBackgroundThreads > 0 then r.HighPriorityBackgroundThreads
        else 1)) ∧
    32 * MB = 33554432 ∧
    (r.Level0FileNumCompactionTrigger ≤ 0 → r.Level0SlowdownWritesTrigger ≤ 0 →
      r.Level0StopWritesTrigger ≤ 0 →
      r.adjust.Level0FileNumCompactionTrigger < r.adjust.Level0SlowdownWritesTrigger ∧
      r.adjust.Level0SlowdownWritesTrigger < r.adjust.Level0StopWritesTrigger) := by
  refine ⟨⟨?_, ?_, ?_, ?_, ?_, ?_, ?_, ?_, ?_, ?_, ?_, ?_, ?_, ?_, ?_⟩, by decide, ?_⟩
  case refine_16 =>
    intro h1 h2 h3
    simp only [RocksDBConfig.adjust, getDefault_nonpos _ _ h1, getDefault_nonpos _ _ h2,
      getDefault_nonpos _ _ h3]
    exact ⟨by decide, by decide⟩
  all_goals simp only [RocksDBConfig.adjust, getDefault_eq_ite]

/-- C16 at the zeroed RocksDB section: every trigger is defaulted, and
4 < 16 < 64. -/
theorem C16_rocksdb_tunables_witness :
    RocksDBConfig.zero.adjust.Level0FileNumCompactionTrigger <
      RocksDBConfig.zero.adjust.Level0SlowdownWritesTrigger ∧
    RocksDBConfig.zero.adjust.Level0SlowdownWritesTrigger <
      RocksDBConfig.zero.adjust.Level0StopWritesTrigger :=
  (C16_rocksdb_tunables RocksDBConfig.zero).2.2 (by decide) (by decide) (by decide)

/-! ## C17: Rewrite is DumpFile to the recorded path -/

/-- C17: for a Config with a non-empty `FileName`, `Rewrite` is
`DumpFile(cfg.FileName)`: the same error or success and the same world
afterwards.  The Config is only read: the encoder is called on `cfg` itself,
and the one write that may follow is a write to `cfg.FileName`.  On success
that path holds the encoder's bytes for `cfg`; whatever the outcome, every
path other than `cfg.FileName` and the write's own temporary file reads as
before. -/
theorem C17_rewrite_is_dumpfile (env : Env) (cfg : Config) (w : World)
    (h : cfg.FileName ≠ "") :
    cfg.Rewrite env w = cfg.DumpFile env cfg.FileName w ∧
    (∃ rest, (cfg.Rewrite env w).2.calls = w.calls ++ Call.Encode cfg :: rest ∧
      (rest = [] ∨ ∃ b, env.encode cfg = Except.ok b ∧
        rest = [Call.WriteFileAtomic cfg.FileName b])) ∧
    ((cfg.Rewrite env w).1 = none →
      ∃ b, env.encode cfg = Except.ok b ∧
        (cfg.Rewrite env w).2.file cfg.FileName = Except.ok b) ∧
    (∀ p, p ≠ cfg.FileName → p ≠ tempName env cfg.FileName →
      (cfg.Rewrite env w).2.file p = w.file p) := by
  have hlen : cfg.FileName.length ≠ 0 := fun h0 => h (eq_empty_of_length_eq_zero _ h0)
  have hne : cfg.FileName ≠ tempName env cfg.FileName :=
    fun e => tempName_ne env cfg.FileName e.symm
  have heq : cfg.Rewrite env w = cfg.DumpFile env cfg.FileName w := by
    simp only [Config.Rewrite, hlen, if_false]
  rw [heq]
  refine ⟨rfl, ?_, ?_, ?_⟩
  · cases he : env.encode cfg with
    | error msg =>
      exact ⟨[], by simp only [Config.DumpFile, Config.Dump, he], Or.inl rfl⟩
    | ok b =>
      refine ⟨[Call.WriteFileAtomic cfg.FileName b], ?_, Or.inr ⟨b, rfl, rfl⟩⟩
      simp only [Config.DumpFile, Config.Dump, he, WriteFileAtomic]
      cases h1 : w.file (tempName env cfg.FileName) with
      | ok d => simp only [h1, List.append_assoc, List.singleton_append]
      | error e =>
        cases h2 : env.outcome cfg.FileName <;>
          simp only [h1, h2, World.put, World.remove, List.append_assoc,
            List.singleton_append]
  · intro hok
    cases he : env.encode cfg with
    | error msg => simp only [Config.DumpFile, Config.Dump, he] at hok; cases hok
    | ok b =>
      refine ⟨b, rfl, ?_⟩
      simp only [Config.DumpFile, Config.Dump, he, WriteFileAtomic] at hok ⊢
      cases h1 : w.file (tempName env cfg.FileName) with
      | ok d => simp only [h1] at hok; cases hok
      | error e =>
        cases h2 : env.outcome cfg.FileName with
        | tempFileFails m => simp only [h1, h2] at hok; cases hok
        | writeFails wr m => simp only [h1, h2] at hok; cases hok
        | renameFails m => simp only [h1, h2] at hok; cases hok
        | done => simp only [h1, h2, remove_file_of_ne _ _ _ hne, put_file_self]
  · intro p hp hpt
    cases he : env.encode cfg with
    | error msg => simp only [Config.DumpFile, Config.Dump, he]
    | ok b =>
      simp only [Config.DumpFile, Config.Dump, he, WriteFileAtomic]
      cases h1 : w.file (tempName env cfg.FileName) with
      | ok d => simp only [h1]
      | error e =>
        cases h2 : env.outcome cfg.FileName <;>
          simp only [h1, h2, remove_file_of_ne _ _ _ hpt, put_file_of_ne _ _ _ _ hpt,
            put_file_of_ne _ _ _ _ hp]

/-- C17 at the Config loaded from `ledis.conf`: `Rewrite` is `DumpFile` to
`ledis.conf`, it succeeds, and `ledis.conf` then holds the bytes of the
Config. -/
theorem C17_rewrite_is_dumpfile_witness :
    exampleConfig.Rewrite Env.std exampleWorld =
      exampleConfig.DumpFile Env.std "ledis.conf" exampleWorld ∧
    (exampleConfig.Rewrite Env.std exampleWorld).1 = none ∧
    (exampleConfig.Rewrite Env.std exampleWorld).2.file "ledis.conf" =
      Except.ok (Data.document (Encode exampleConfig)) :=
  ⟨(C17_rewrite_is_dumpfile Env.std exampleConfig exampleWorld (by decide)).1, rfl, rfl⟩

/-! ## C18: what adjust leaves alone -/

/-- C18: frame of `adjust`.  `Config.adjust` leaves every field it does not
normalise exactly as it was, whatever its value: FileName, Addr, HttpAddr,
SlaveOf, Readonly, DataDir, DBName, DBPath, DBSyncCommit, AccessLog,
UseReplication, ConnKeepaliveInterval, the boolean engine flags,
RocksDB.Compression, the LMDB and Snapshot sections, and the Replication
fields other than ExpiredLogDays; and a Config whose normalised fields (the 4
LevelDB fields, the 19 RocksDB fields, Replication.ExpiredLogDays,
ConnReadBufferSize, ConnWriteBufferSize, TTLCheckInterval) are all positive
is returned unchanged. -/
theorem C18_adjust_frame (c : Config) :
    (c.adjust.FileName = c.FileName ∧ c.adjust.Addr = c.Addr ∧
     c.adjust.HttpAddr = c.HttpAddr ∧ c.adjust.SlaveOf = c.SlaveOf ∧
     c.adjust.Readonly = c.Readonly ∧ c.adjust.DataDir = c.DataDir ∧
     c.adjust.DBName = c.DBName ∧ c.adjust.DBPath = c.DBPath ∧
     c.adjust.DBSyncCommit = c.DBSyncCommit ∧ c.adjust.AccessLog = c.AccessLog ∧
     c.adjust.UseReplication = c.UseReplication ∧
     c.adjust.ConnKeepaliveInterval = c.ConnKeepaliveInterval) ∧
    (c.adjust.LevelDB.Compression = c.LevelDB.Compression ∧
     c.adjust.RocksDB.Compression = c.RocksDB.Compression ∧
     c.adjust.RocksDB.DisableAutoCompactions = c.RocksDB.DisableAutoCompactions ∧
     c.adjust.RocksDB.DisableDataSync = c.RocksDB.DisableDataSync ∧
     c.adjust.RocksDB.UseFsync = c.RocksDB.UseFsync ∧
     c.adjust.RocksDB.AllowOsBuffer = c.RocksDB.AllowOsBuffer ∧
     c.adjust.RocksDB.EnableStatistics = c.RocksDB.EnableStatistics ∧
     c.adjust.RocksDB.DisableWAL = c.RocksDB.DisableWAL) ∧
    (c.adjust.LMDB = c.LMDB ∧ c.adjust.Snapshot = c.Snapshot ∧
     c.adjust.Replication.Path = c.Replication.Path ∧
     c.adjust.Replication.Sync = c.Replication.Sync ∧
     c.adjust.Replication.WaitSyncTime = c.Replication.WaitSyncTime ∧
     c.adjust.Replication.WaitMaxSlaveAcks = c.Replication.WaitMaxSlaveAcks ∧
     c.adjust.Replication.SyncLog = c.Replication.SyncLog ∧
     c.adjust.Replication.Compression = c.Replication.Compression) ∧
    ((0 < c.LevelDB.CacheSize ∧ 0 < c.LevelDB.BlockSize ∧
      0 < c.LevelDB.WriteBufferSize ∧ 0 < c.LevelDB.MaxOpenFiles) →
     (0 < c.RocksDB.CacheSize ∧ 0 < c.RocksDB.BlockSize ∧
      0 < c.RocksDB.WriteBufferSize ∧ 0 < c.RocksDB.MaxOpenFiles ∧
      0 < c.RocksDB.MaxWriteBufferNum ∧ 0 < c.RocksDB.MinWriteBufferNumberToMerge ∧
      0 < c.RocksDB.NumLevels ∧ 0 < c.RocksDB.Level0FileNumCompactionTrigger ∧
      0 < c.RocksDB.Level0SlowdownWritesTrigger ∧ 0 < c.RocksDB.Level0StopWritesTrigger ∧
      0 < c.RocksDB.TargetFileSizeBase ∧ 0 < c.RocksDB.TargetFileSizeMultiplier ∧
      0 < c.RocksDB.MaxBytesForLevelBase ∧ 0 < c.RocksDB.MaxBytesForLevelMultiplier ∧
      0 < c.RocksDB.MaxBackgroundCompactions ∧ 0 < c.RocksDB.MaxBackgroundFlushes ∧
      0 < c.RocksDB.StatsDumpPeriodSec ∧ 0 < c.RocksDB.BackgroundThreads ∧
      0 < c.RocksDB.HighPriorityBackgroundThreads) →
     (0 < c.Replication.ExpiredLogDays ∧ 0 < c.ConnReadBufferSize ∧
      0 < c.ConnWriteBufferSize ∧ 0 < c.TTLCheckInterval) →
     c.adjust = c) := by
  refine ⟨⟨rfl, rfl, rfl, rfl, rfl, rfl, rfl, rfl, rfl, rfl, rfl, rfl⟩,
    ⟨rfl, rfl, rfl, rfl, rfl, rfl, rfl, rfl⟩, ⟨rfl, rfl, rfl, rfl, rfl, rfl, rfl, rfl⟩, ?_⟩
  rintro ⟨l1, l2, l3, l4⟩
    ⟨r1, r2, r3, r4, r5, r6, r7, r8, r9, r10, r11, r12, r13, r14, r15, r16, r17, r18, r19⟩
    ⟨t1, t2, t3, t4⟩
  simp only [Config.adjust, LevelDBConfig.adjust, RocksDBConfig.adjust,
    getDefault_pos _ _ l1, getDefault_pos _ _ l2, getDefault_pos _ _ l3,
    getDefault_pos _ _ l4, getDefault_pos _ _ r1, getDefault_pos _ _ r2,
    getDefault_pos _ _ r3, getDefault_pos _ _ r4, getDefault_pos _ _ r5,
    getDefault_pos _ _ r6, getDefault_pos _ _ r7, getDefault_pos _ _ r8,
    getDefault_pos _ _ r9, getDefault_pos _ _ r10, getDefault_pos _ _ r11,
    getDefault_pos _ _ r12, getDefault_pos _ _ r13, getDefault_pos _ _ r14,
    getDefault_pos _ _ r15, getDefault_pos _ _ r16, getDefault_pos _ _ r17,
    getDefault_pos _ _ r18, getDefault_pos _ _ r19, getDefault_pos _ _ t1,
    getDefault_pos _ _ t2, getDefault_pos _ _ t3, getDefault_pos _ _ t4]

/-- C18 at the Config loaded from `ledis.conf`: all its normalised fields are
positive, and `adjust` returns it unchanged. -/
theorem C18_adjust_frame_witness : exampleConfig.adjust = exampleConfig :=
  (C18_adjust_frame exampleConfig).2.2.2
    (by decide) (by decide) (by decide)

end Ledis
